import Mathlib

/-!
# darknet_ros_3d: 3D boxes from 2D detections and an organised point cloud

Shallow embedding of `src/darknet_ros_3d/src/darknet_ros_3d/Darknet3D.cpp`.

Conventions of the embedding.

* A `float` or `double` value is the rational number it denotes; a cloud entry is
  `Option PointXYZRGB` and `none` stands for a point whose `x` is NaN, the one non-finite
  value the code tests for (`std::isnan(point.x)`).  Every finite `float` lies in
  `[-FLT_MAX, FLT_MAX]`; that range is a hypothesis (`InFloatRange`) where it is needed.
* Floating-point operations round.  `float32` and `float64` round a rational to the nearest
  binary32 or binary64 value, ties to even, subnormals included; the exponent is not bounded
  above, so a rounded value beyond the largest finite one stands for the infinity of an
  overflow.  The operations of the file that round are `point.x - center_point.x`
  (`fabs_diff`), `width * width_percentage` with the `float` constants 0.55f and 0.35f
  (`width_step`, `height_step`) and the arithmetic and the `float32` colour fields of
  `publish_markers` (`bbx_marker`).  Comparisons, `std::max` and `std::min` are exact.
* `int` and `int64` values are integers.  A conversion to a narrower type wraps (`to_int`);
  the fields of a detection are `int64` and the variables `center_x`, `center_y`, `width`,
  `height` and the loop counters of the dense scan are `int`.  An `int` or `int64` sum that
  overflows is taken with its wrapped value (`to_int64` of `xmax + xmin`, `to_int` of
  `center_x + i * width_step`).  The increment of a loop counter that holds `INT_MAX` is the
  outcome `Exn.signed_overflow`, since the wrapped counter would never leave the loop.  The
  one unsigned computation of the file, the index `(j * cloud_pc2.width) + i` stored into an
  `int`, wraps modulo `2^32` (`pcl_index`).
* `cloud_pcl->at(n)` throws `std::out_of_range`; the functions that call it return `Except`.
* `cloud_pc2` and `cloud_pcl` are two views of one message: `PointCloud` holds the header
  stamp, `width` and `height` of the first and the `points` of the second.
* The library calls of `darknetCb` (cache lookup, subscriber counts, `transformPointCloud`)
  are parameters of its embedding; what it publishes is returned as a `CallbackTrace`.
* The clock readings and the output line of `compute_center_point` live in a `World` that the
  `_timed` functions thread; `compute_center_point` itself is their value without the world.
-/

namespace darknet_ros_3d

/-! ## Data -/

/-- The coordinates of a `pcl::PointXYZRGB` whose `x` is not NaN (the colour is never read). -/
structure PointXYZRGB where
  x : ℚ
  y : ℚ
  z : ℚ
  deriving DecidableEq

/-- Value of the default constructor `pcl::PointXYZRGB()`: all coordinates zero. -/
def PointXYZRGB.zero : PointXYZRGB := ⟨0, 0, 0⟩

/-- The aligned cloud handed to `calculate_boxes`. -/
structure PointCloud where
  stamp : Nat
  width : Nat
  height : Nat
  points : List (Option PointXYZRGB)
  deriving DecidableEq

/-- A `darknet_ros_msgs::BoundingBox`. -/
structure BoundingBox where
  Class : String
  probability : ℚ
  xmin : Int
  ymin : Int
  xmax : Int
  ymax : Int

/-- A `gb_visual_detection_3d_msgs::BoundingBox3d`. -/
structure BoundingBox3d where
  Class : String
  probability : ℚ
  xmin : ℚ
  xmax : ℚ
  ymin : ℚ
  ymax : ℚ
  zmin : ℚ
  zmax : ℚ
  deriving DecidableEq

/-- A `gb_visual_detection_3d_msgs::BoundingBoxes3d`: header and boxes. -/
structure BoundingBoxes3d where
  stamp : Nat
  frame_id : String
  bounding_boxes : List BoundingBox3d
  deriving DecidableEq

/-- The members of `Darknet3D` that `calculate_boxes` reads (set by `initParams`). -/
structure Darknet3D where
  working_frame_ : String
  mininum_detection_thereshold_ : ℚ
  minimum_probability_ : ℚ
  interested_classes_ : List String

/-- Outcomes without a result: `out_of_range` is the exception of `std::vector::at`;
`signed_overflow` is the increment of an `int` loop counter that holds `INT_MAX`, whose
behaviour is undefined. -/
inductive Exn where
  | out_of_range
  | signed_overflow
  deriving DecidableEq

deriving instance DecidableEq for Except

/-- Value of `std::numeric_limits<float>::max()`, `(2 - 2^-23) * 2^127`. -/
def FLT_MAX : ℚ := 340282346638528859811704183484516925440

/-- `std::max(a, b)`, which is `(a < b) ? b : a`. -/
def std_max (a b : ℚ) : ℚ := if a < b then b else a

/-- `std::min(a, b)`, which is `(b < a) ? b : a`. -/
def std_min (a b : ℚ) : ℚ := if b < a then b else a

/-! ### Floating-point rounding -/

/-- The power `2 ^ e` for an integer exponent. -/
def pow2 (e : Int) : ℚ := if 0 ≤ e then ((2 ^ e.toNat : Nat) : ℚ) else 1 / ((2 ^ (-e).toNat : Nat) : ℚ)

/-- The number of halvings that bring `n` down to 1, with `fuel` steps at most. -/
def halvings : Nat → Nat → Nat
  | 0, _ => 0
  | fuel + 1, n => if n ≤ 1 then 0 else halvings fuel (n / 2) + 1

/-- The integer part of the binary logarithm of `n ≥ 1`. -/
def nat_log2 (n : Nat) : Nat := halvings n n

/-- An exponent `e` with `2 ^ e ≤ |q| < 2 ^ (e + 1)` for a rational `q ≠ 0`. -/
def ilog2 (q : ℚ) : Int :=
  if pow2 ((nat_log2 q.num.natAbs : Int) - (nat_log2 q.den : Int)) ≤ |q| then
    (nat_log2 q.num.natAbs : Int) - (nat_log2 q.den : Int)
  else (nat_log2 q.num.natAbs : Int) - (nat_log2 q.den : Int) - 1

/-- Rounding to the nearest integer, ties to even. -/
def round_half_even (r : ℚ) : Int :=
  if r - ⌊r⌋ < 1 / 2 then ⌊r⌋
  else if 1 / 2 < r - ⌊r⌋ then ⌊r⌋ + 1
  else if ⌊r⌋ % 2 = 0 then ⌊r⌋ else ⌊r⌋ + 1

/-- Rounding to the nearest binary floating-point value of `prec` significant bits and least
normal exponent `emin`, ties to even.  The exponent is not bounded above. -/
def round_float (prec : Nat) (emin : Int) (q : ℚ) : ℚ :=
  if q = 0 then 0
  else (round_half_even (q / pow2 (max (ilog2 q) emin - ((prec : Int) - 1))) : ℚ)
    * pow2 (max (ilog2 q) emin - ((prec : Int) - 1))

/-- Rounding to `float` (binary32). -/
def float32 (q : ℚ) : ℚ := round_float 24 (-126) q

/-- Rounding to `double` (binary64). -/
def float64 (q : ℚ) : ℚ := round_float 53 (-1022) q

/-! ### Integers -/

/-- Conversion of a wider or unsigned value to `int` (32 bits, wrapping into the negative
half); also the value of an `int` result that overflows. -/
def to_int (n : Int) : Int := (n + 2 ^ 31) % 2 ^ 32 - 2 ^ 31

/-- The value of an `int64` result (64 bits, wrapping into the negative half). -/
def to_int64 (n : Int) : Int := (n + 2 ^ 63) % 2 ^ 64 - 2 ^ 63

/-- The index `(row * cloud_pc2.width) + col`, computed in `uint32_t` and stored in an `int`. -/
def pcl_index (cloud : PointCloud) (row col : Int) : Int :=
  to_int (row * (cloud.width : Int) + col)

/-- `cloud_pcl->at(n)`: the `int` argument converts to `size_t`, so a negative one is out of
range like any index past the end. -/
def cloud_at (cloud : PointCloud) (n : Int) : Except Exn (Option PointXYZRGB) :=
  if n < 0 then Except.error Exn.out_of_range
  else
    match cloud.points[n.toNat]? with
    | some p => Except.ok p
    | none => Except.error Exn.out_of_range

/-- The values taken by `k` in `for (int k = lo; k < hi; k++)`. -/
def int_range (lo hi : Int) : List Int :=
  (List.range (hi - lo).toNat).map (fun (k : Nat) => lo + (k : Int))

/-- A `for` loop that updates a state and stops at the first exception. -/
def for_loop {σ : Type} (body : Int → σ → Except Exn σ) : List Int → σ → Except Exn σ
  | [], s => Except.ok s
  | k :: ks, s =>
    match body k s with
    | Except.ok s1 => for_loop body ks s1
    | Except.error e => Except.error e

/-- The loop `for (int k = lo; k < hi; k++)` whose bounds `lo`, `hi` are `int64` fields: `k`
starts at `lo` narrowed to `int` and is compared with `hi` as an `int64`. When `hi` is above
every `int` the test never fails, and after the iteration `k = INT_MAX` the increment
overflows. -/
def int_counter_loop {σ : Type} (lo hi : Int) (body : Int → σ → Except Exn σ) (s : σ) :
    Except Exn σ :=
  match for_loop body (int_range (to_int lo) (min hi (2 ^ 31))) s with
  | Except.error e => Except.error e
  | Except.ok s1 => if 2 ^ 31 ≤ hi then Except.error Exn.signed_overflow else Except.ok s1

/-- A `for` loop whose iterations each `push_back` some elements onto one vector: the vector
after the loop, in push order, or the first exception. -/
def collect {α : Type} (body : Int → Except Exn (List α)) : List Int → Except Exn (List α)
  | [] => Except.ok []
  | k :: ks =>
    match body k with
    | Except.error e => Except.error e
    | Except.ok r =>
      match collect body ks with
      | Except.error e => Except.error e
      | Except.ok rest => Except.ok (r ++ rest)

/-! ## compute_center_point -/

def num_samples : Int := 500

/-- The `float` constant `0.55f`. -/
def width_percentage : ℚ := float32 (55 / 100)

/-- The `float` constant `0.35f`. -/
def height_percentage : ℚ := float32 (35 / 100)

/-- `static_cast<int>` of a floating value: truncation toward zero. -/
def static_cast_int (q : ℚ) : Int := if 0 ≤ q then ⌊q⌋ else ⌈q⌉

/-- The `int` variable `center_x`: the quotient of the `int64` sum, narrowed to `int`. -/
def center_x (box2d : BoundingBox) : Int :=
  to_int (Int.tdiv (to_int64 (box2d.xmax + box2d.xmin)) 2)

/-- The `int` variable `center_y`. -/
def center_y (box2d : BoundingBox) : Int :=
  to_int (Int.tdiv (to_int64 (box2d.ymax + box2d.ymin)) 2)

/-- The `int` variable `width`: the `int64` difference, narrowed to `int`. -/
def box_width (box2d : BoundingBox) : Int := to_int (to_int64 (box2d.xmax - box2d.xmin))

/-- The `int` variable `height`. -/
def box_height (box2d : BoundingBox) : Int := to_int (to_int64 (box2d.ymax - box2d.ymin))

/-- The `int` variable `width_step`: `width` is converted to `float`, multiplied by the
`float` `width_percentage`, truncated to `int` and divided by `num_samples`. -/
def width_step (box2d : BoundingBox) : Int :=
  Int.tdiv (static_cast_int (float32 (float32 (box_width box2d : ℚ) * width_percentage)))
    num_samples

/-- The `int` variable `height_step`. -/
def height_step (box2d : BoundingBox) : Int :=
  Int.tdiv (static_cast_int (float32 (float32 (box_height box2d : ℚ) * height_percentage)))
    num_samples

/-- The `int` variable `new_x` of iteration `i`. -/
def new_x (box2d : BoundingBox) (i : Int) : Int := to_int (center_x box2d + i * width_step box2d)

/-- The `int` variable `new_y` of iteration `j`. -/
def new_y (box2d : BoundingBox) (j : Int) : Int := to_int (center_y box2d + j * height_step box2d)

/-- The body of the inner sampling loop at pixel `(new_x, new_y)`: what it pushes. -/
def sample (cloud : PointCloud) (new_x new_y : Int) : Except Exn (List PointXYZRGB) :=
  if new_x < 0 ∨ new_x ≥ (cloud.width : Int) ∨ new_y < 0 ∨ new_y ≥ (cloud.height : Int) then
    Except.ok []
  else
    match cloud_at cloud (pcl_index cloud new_y new_x) with
    | Except.error e => Except.error e
    | Except.ok none => Except.ok []
    | Except.ok (some point) => Except.ok [point]

/-- The vector `points` after the two sampling loops. -/
def sample_points (cloud : PointCloud) (box2d : BoundingBox) : Except Exn (List PointXYZRGB) :=
  collect (fun i =>
    collect (fun j =>
      sample cloud (new_x box2d i) (new_y box2d j))
      (int_range (Int.tdiv (-num_samples) 2) (Int.tdiv num_samples 2 + 1)))
    (int_range (Int.tdiv (-num_samples) 2) (Int.tdiv num_samples 2 + 1))

/-- The loop `for (const auto& pt : points) if (pt.x < min_x_point.x) min_x_point = pt;`. -/
def min_x_loop (min_x_point : PointXYZRGB) (points : List PointXYZRGB) : PointXYZRGB :=
  points.foldl (fun m pt => if pt.x < m.x then pt else m) min_x_point

@[irreducible] def compute_center_point (cloud : PointCloud) (box2d : BoundingBox) : Except Exn PointXYZRGB :=
  match sample_points cloud box2d with
  | Except.error e => Except.error e
  | Except.ok [] => Except.ok PointXYZRGB.zero
  | Except.ok (p0 :: rest) => Except.ok (min_x_loop p0 (p0 :: rest))

/-! ## calculate_boxes -/

/-- The six running extremes of the dense scan. -/
structure Extent where
  maxx : ℚ
  minx : ℚ
  maxy : ℚ
  miny : ℚ
  maxz : ℚ
  minz : ℚ
  deriving DecidableEq

/-- The extremes before the scan: every max at `-FLT_MAX`, every min at `FLT_MAX`. -/
def Extent.init : Extent := ⟨-FLT_MAX, FLT_MAX, -FLT_MAX, FLT_MAX, -FLT_MAX, FLT_MAX⟩

/-- The six `std::max` / `std::min` updates for one kept point. -/
def Extent.update (e : Extent) (point : PointXYZRGB) : Extent :=
  { maxx := std_max point.x e.maxx
    minx := std_min point.x e.minx
    maxy := std_max point.y e.maxy
    miny := std_min point.y e.miny
    maxz := std_max point.z e.maxz
    minz := std_min point.z e.minz }

/-- The value of `fabs(a - b)` for `float` values `a` and `b`: the exact difference rounded
to `float`. A value above `FLT_MAX` stands for the infinity the subtraction overflows to. -/
def fabs_diff (a b : ℚ) : ℚ := |float32 (a - b)|

/-- The test `fabs(a - b) > threshold`; an infinity exceeds every threshold. -/
def exceeds (a b threshold : ℚ) : Prop := FLT_MAX < fabs_diff a b ∨ fabs_diff a b > threshold

instance (a b threshold : ℚ) : Decidable (exceeds a b threshold) := by
  unfold exceeds; infer_instance

/-- The body of the dense scan at column `i`, row `j`. -/
def scan_pixel (self : Darknet3D) (cloud : PointCloud) (center_point : PointXYZRGB)
    (i j : Int) (e : Extent) : Except Exn Extent :=
  match cloud_at cloud (pcl_index cloud j i) with
  | Except.error ex => Except.error ex
  | Except.ok none => Except.ok e
  | Except.ok (some point) =>
    if exceeds point.x center_point.x self.mininum_detection_thereshold_ then Except.ok e
    else Except.ok (e.update point)

/-- The two nested loops of the dense scan, columns outermost. -/
def dense_scan (self : Darknet3D) (cloud : PointCloud) (center_point : PointXYZRGB)
    (bbx : BoundingBox) : Except Exn Extent :=
  int_counter_loop bbx.xmin bbx.xmax (fun i e =>
    int_counter_loop bbx.ymin bbx.ymax (fun j e1 => scan_pixel self cloud center_point i j e1) e)
    Extent.init

/-- The test that makes the detection loop `continue`. -/
def skipped (self : Darknet3D) (bbx : BoundingBox) : Bool :=
  decide (bbx.probability < self.minimum_probability_) ||
    (self.interested_classes_.find? (fun c => c == bbx.Class)).isNone

/-- The message built from the extremes. -/
def bbx_msg (bbx : BoundingBox) (e : Extent) : BoundingBox3d :=
  { Class := bbx.Class
    probability := bbx.probability
    xmin := e.minx
    xmax := e.maxx
    ymin := e.miny
    ymax := e.maxy
    zmin := e.minz
    zmax := e.maxz }

/-- One iteration of the detection loop for a detection that is not skipped. -/
def estimate (self : Darknet3D) (cloud : PointCloud) (bbx : BoundingBox) :
    Except Exn BoundingBox3d :=
  match compute_center_point cloud bbx with
  | Except.error ex => Except.error ex
  | Except.ok center_point =>
    match dense_scan self cloud center_point bbx with
    | Except.error ex => Except.error ex
    | Except.ok e => Except.ok (bbx_msg bbx e)

/-- The detection loop over `boxes2d->bounding_boxes`, appending to `boxes->bounding_boxes`. -/
def detection_loop (self : Darknet3D) (cloud : PointCloud) :
    List BoundingBox → List BoundingBox3d → Except Exn (List BoundingBox3d)
  | [], out => Except.ok out
  | bbx :: rest, out =>
    if skipped self bbx then detection_loop self cloud rest out
    else
      match estimate self cloud bbx with
      | Except.error ex => Except.error ex
      | Except.ok b => detection_loop self cloud rest (out ++ [b])

def calculate_boxes (self : Darknet3D) (cloud : PointCloud) (boxes2d : List BoundingBox)
    (boxes : BoundingBoxes3d) : Except Exn BoundingBoxes3d :=
  match detection_loop self cloud boxes2d boxes.bounding_boxes with
  | Except.error ex => Except.error ex
  | Except.ok out =>
    Except.ok { stamp := cloud.stamp, frame_id := self.working_frame_, bounding_boxes := out }

/-- The `boxes3d_msg` that `darknetCb` declares before the call: empty. -/
def BoundingBoxes3d.empty : BoundingBoxes3d := ⟨0, "", []⟩

/-! ## Specification vocabulary -/

/-- The cloud holds `width * height` points and its indices fit an `int`. -/
def WellFormed (cloud : PointCloud) : Prop :=
  cloud.points.length = cloud.width * cloud.height ∧ cloud.width * cloud.height < 2 ^ 31

instance (cloud : PointCloud) : Decidable (WellFormed cloud) := by
  unfold WellFormed; infer_instance

/-- Column `x`, row `y` is a pixel of the frame. -/
def InFrame (cloud : PointCloud) (x y : Int) : Prop :=
  0 ≤ x ∧ x < (cloud.width : Int) ∧ 0 ≤ y ∧ y < (cloud.height : Int)

instance (cloud : PointCloud) (x y : Int) : Decidable (InFrame cloud x y) := by
  unfold InFrame; infer_instance

/-- The cloud entry at column `x`, row `y`, by row-major index (no wrap, no exception). -/
def pixel (cloud : PointCloud) (x y : Int) : Option (Option PointXYZRGB) :=
  cloud.points[(y * (cloud.width : Int) + x).toNat]?

/-- A surviving sparse sample of `compute_center_point`: the point of a sampled pixel
`(new_x, new_y)` of some iteration `i, j ∈ [-250, 250]` that lies in the frame and is not
NaN. -/
def SparseSample (cloud : PointCloud) (box2d : BoundingBox) (p : PointXYZRGB) : Prop :=
  ∃ i j : Int, (-250 ≤ i ∧ i ≤ 250) ∧ (-250 ≤ j ∧ j ≤ 250) ∧
    InFrame cloud (new_x box2d i) (new_y box2d j) ∧
    pixel cloud (new_x box2d i) (new_y box2d j)
      = some (some p)

/-- The detection rectangle lies inside the frame, and its four coordinates fit an `int`. -/
def RectInFrame (cloud : PointCloud) (bbx : BoundingBox) : Prop :=
  0 ≤ bbx.xmin ∧ bbx.xmax ≤ (cloud.width : Int) ∧ 0 ≤ bbx.ymin ∧
    bbx.ymax ≤ (cloud.height : Int) ∧
    bbx.xmin < 2 ^ 31 ∧ bbx.xmax < 2 ^ 31 ∧ bbx.ymin < 2 ^ 31 ∧ bbx.ymax < 2 ^ 31

instance (cloud : PointCloud) (bbx : BoundingBox) : Decidable (RectInFrame cloud bbx) := by
  unfold RectInFrame; infer_instance

/-- The coordinates of a cloud entry are finite `float` values (nothing is asked of NaN). -/
def FiniteEntry : Option PointXYZRGB → Prop
  | none => True
  | some p =>
    (-FLT_MAX ≤ p.x ∧ p.x ≤ FLT_MAX) ∧ (-FLT_MAX ≤ p.y ∧ p.y ≤ FLT_MAX) ∧
      (-FLT_MAX ≤ p.z ∧ p.z ≤ FLT_MAX)

instance : DecidablePred FiniteEntry := fun e => by
  cases e <;> unfold FiniteEntry <;> infer_instance

/-- Every coordinate of every valid point of the cloud is a finite `float`. -/
def InFloatRange (cloud : PointCloud) : Prop := ∀ e ∈ cloud.points, FiniteEntry e

instance (cloud : PointCloud) : Decidable (InFloatRange cloud) := by
  unfold InFloatRange; infer_instance

/-- `v` is the least value of `f` over the points that satisfy `S`. -/
def IsMinOver (S : PointXYZRGB → Prop) (f : PointXYZRGB → ℚ) (v : ℚ) : Prop :=
  (∃ p, S p ∧ f p = v) ∧ ∀ q, S q → v ≤ f q

/-- `v` is the greatest value of `f` over the points that satisfy `S`. -/
def IsMaxOver (S : PointXYZRGB → Prop) (f : PointXYZRGB → ℚ) (v : ℚ) : Prop :=
  (∃ p, S p ∧ f p = v) ∧ ∀ q, S q → f q ≤ v

/-- A surviving point of the dense scan: the point at row-major index `y * width + x` of a
pixel with `x ∈ [xmin, xmax)`, `y ∈ [ymin, ymax)` that is valid and for which the test
`fabs(point.x - anchor.x) > threshold` of the scan fails. -/
def Survives (self : Darknet3D) (cloud : PointCloud) (anchor : PointXYZRGB) (bbx : BoundingBox)
    (p : PointXYZRGB) : Prop :=
  ∃ x y : Int, (bbx.xmin ≤ x ∧ x < bbx.xmax) ∧ (bbx.ymin ≤ y ∧ y < bbx.ymax) ∧
    pixel cloud x y = some (some p) ∧
    ¬ exceeds p.x anchor.x self.mininum_detection_thereshold_

/-- What the dense scan keeps at column `i`, row `j`, read by row-major index. -/
def kept (self : Darknet3D) (cloud : PointCloud) (anchor : PointXYZRGB) (i j : Int) :
    Option PointXYZRGB :=
  match pixel cloud i j with
  | some (some p) =>
    if exceeds p.x anchor.x self.mininum_detection_thereshold_ then none else some p
  | _ => none

/-- The points the dense scan keeps, in scan order. -/
def kept_points (self : Darknet3D) (cloud : PointCloud) (anchor : PointXYZRGB)
    (bbx : BoundingBox) : List PointXYZRGB :=
  (int_range bbx.xmin bbx.xmax).flatMap (fun i =>
    (int_range bbx.ymin bbx.ymax).filterMap (fun j => kept self cloud anchor i j))

/-- The output box `b3` carries the class label and the confidence of the detection `b2`. -/
def Carries (b3 : BoundingBox3d) (b2 : BoundingBox) : Prop :=
  b3.Class = b2.Class ∧ b3.probability = b2.probability

/-! ## Concrete inputs -/

/-- The parameters of `initParams`, with one class in the allow-list. -/
def cfg0 : Darknet3D := ⟨"/camera_link", 1 / 2, 3 / 10, ["person"]⟩

/-- A 2 × 1 cloud: pixel (0,0) is NaN, pixel (1,0) is the point (1,0,0). -/
def cloud_nan_left : PointCloud := ⟨7, 2, 1, [none, some ⟨1, 0, 0⟩]⟩

/-- A detection over the single pixel (0,0). -/
def box_left : BoundingBox := ⟨"person", 9 / 10, 0, 0, 1, 1⟩

/-- A detection over the single pixel (1,0). -/
def box_right : BoundingBox := ⟨"person", 9 / 10, 1, 0, 2, 1⟩

/-- A 2 × 1 cloud: pixel (0,0) is the point (1/4,0,1), pixel (1,0) is NaN. -/
def cloud_nan_centre : PointCloud := ⟨7, 2, 1, [some ⟨1 / 4, 0, 1⟩, none]⟩

/-- The same cloud with a real point at the origin in pixel (1,0). -/
def cloud_origin_centre : PointCloud := ⟨7, 2, 1, [some ⟨1 / 4, 0, 1⟩, some ⟨0, 0, 0⟩]⟩

/-- A 2 × 1 cloud: pixel (0,0) is the point (2,0,1), pixel (1,0) is NaN. -/
def cloud_far : PointCloud := ⟨7, 2, 1, [some ⟨2, 0, 1⟩, none]⟩

/-- A detection over both pixels of a 2 × 1 cloud; its centre pixel is (1,0). -/
def box_row : BoundingBox := ⟨"person", 9 / 10, 0, 0, 2, 1⟩

/-- A 2 × 2 cloud whose only NaN is pixel (1,1). -/
def cloud_hole : PointCloud :=
  ⟨7, 2, 2, [some ⟨1, 0, 0⟩, some ⟨1, 1, 0⟩, some ⟨1, 0, 1⟩, none]⟩

/-- A 2 × 2 cloud of valid points; row 0 has y = 0 and 1, row 1 has y = 5 and 6. -/
def cloud_full : PointCloud :=
  ⟨7, 2, 2, [some ⟨1, 0, 0⟩, some ⟨1, 1, 0⟩, some ⟨1, 5, 0⟩, some ⟨1, 6, 0⟩]⟩

/-- A detection over the whole 2 × 2 frame; its centre pixel is (1,1). -/
def box_full : BoundingBox := ⟨"person", 9 / 10, 0, 0, 2, 2⟩

/-- A 3 × 1 cloud whose x-coordinates are the `float` values 0.6f, 0.1f and 0.7f. -/
def cloud_round : PointCloud :=
  ⟨7, 3, 1,
    [some ⟨5033165 / 8388608, 0, 0⟩, some ⟨13421773 / 134217728, 0, 0⟩,
      some ⟨11744051 / 16777216, 0, 0⟩]⟩

/-- A detection over the whole 3 × 1 frame; its centre pixel is (1,0). -/
def box_round : BoundingBox := ⟨"person", 9 / 10, 0, 0, 3, 1⟩

/-- A 1000 × 1 cloud of valid points; the point of column `k` has `x = 1000 - k`. -/
def cloud_wide : PointCloud :=
  ⟨7, 1000, 1, (List.range 1000).map (fun (k : Nat) => some ⟨1000 - (k : ℚ), 0, 0⟩)⟩

/-- A detection over the whole 1000 × 1 frame; its centre pixel is (500,0) and its horizontal
stride is 1. -/
def box_wide : BoundingBox := ⟨"person", 9 / 10, 0, 0, 1000, 1⟩

/-- A detection over row 0 that extends one column past the right edge of a 2 × 2 frame. -/
def box_past_right : BoundingBox := ⟨"person", 9 / 10, 0, 0, 3, 1⟩

/-- A detection over column 0 that extends one row past the bottom edge of a 2 × 2 frame. -/
def box_past_bottom : BoundingBox := ⟨"person", 9 / 10, 0, 0, 1, 3⟩

/-- A detection of a class outside the allow-list. -/
def box_dog : BoundingBox := ⟨"dog", 9 / 10, 0, 0, 2, 2⟩

/-- The box whose extremes are still the initial ones: min `FLT_MAX`, max `-FLT_MAX`. -/
def sentinel_box : BoundingBox3d :=
  ⟨"person", 9 / 10, FLT_MAX, -FLT_MAX, FLT_MAX, -FLT_MAX, FLT_MAX, -FLT_MAX⟩

/-! ## Frame cache -/

/-- Modelled from the spec: the frame cache behind `pointcloud_cache_`.  Its class,
`message_filters::Cache`, and so `getElemBeforeTime` and `setCacheSize`, are not among the
sources; this is the FrameCache of the spec (§4.1): a bounded history, oldest entry first,
each frame stamped with its `frame_time` (`PointCloud.stamp`). -/
structure FrameCache where
  capacity : Nat
  entries : List PointCloud

/-- Modelled from the spec: `insert(frame)` appends a frame and evicts the oldest entries once
the capacity is exceeded. -/
def FrameCache.insert (cache : FrameCache) (frame : PointCloud) : FrameCache :=
  { cache with
    entries := (cache.entries ++ [frame]).drop ((cache.entries ++ [frame]).length - cache.capacity) }

/-- Modelled from the spec: one step of the scan of `lookup_before`; `best` is the most recent
frame seen so far with `frame_time ≤ t`. -/
def FrameCache.better (t : Nat) (best : Option PointCloud) (frame : PointCloud) :
    Option PointCloud :=
  if frame.stamp ≤ t then
    match best with
    | none => some frame
    | some b => if b.stamp ≤ frame.stamp then some frame else some b
  else best

/-- Modelled from the spec: `lookup_before(t)` returns the most recent stored frame whose
`frame_time ≤ t`, or none if there is no such frame. -/
def FrameCache.lookup_before (cache : FrameCache) (t : Nat) : Option PointCloud :=
  cache.entries.foldl (FrameCache.better t) none

/-- Modelled from the spec: the cache of `Darknet3D::Darknet3D`, `setCacheSize(100)`, empty. -/
def pointcloud_cache_ : FrameCache := ⟨100, []⟩

/-- Three frames stamped 5, 9 and 12 inserted into the empty cache of capacity 100. -/
def cache_three : FrameCache :=
  ((pointcloud_cache_.insert ⟨5, 1, 1, [none]⟩).insert ⟨9, 1, 1, [none]⟩).insert ⟨12, 1, 1, [none]⟩

/-! ## publish_markers and darknetCb -/

/-- The value `visualization_msgs::Marker::CUBE` of the marker type. -/
inductive MarkerType where
  | CUBE
  deriving DecidableEq

/-- The value `visualization_msgs::Marker::ADD` of the marker action. -/
inductive MarkerAction where
  | ADD
  deriving DecidableEq

/-- The fields of a `visualization_msgs::Marker` that `publish_markers` sets. -/
structure Marker where
  frame_id : String
  stamp : Nat
  ns : String
  id : Int
  type : MarkerType
  action : MarkerAction
  position_x : ℚ
  position_y : ℚ
  position_z : ℚ
  orientation_x : ℚ
  orientation_y : ℚ
  orientation_z : ℚ
  orientation_w : ℚ
  scale_x : ℚ
  scale_y : ℚ
  scale_z : ℚ
  color_b : ℚ
  color_g : ℚ
  color_r : ℚ
  color_a : ℚ
  lifetime : ℚ
  deriving DecidableEq

/-- The marker built in one iteration of the loop of `publish_markers`; `counter_id` is the
value of the counter before `counter_id++`. The fields of `bb`, of `pose` and of `scale` are
`float64`, and each operation on them rounds to `float64`; the fields of `color` are
`float32`, so the `double` value assigned to one is rounded to `float32`. -/
def bbx_marker (boxes : BoundingBoxes3d) (counter_id : Int) (bb : BoundingBox3d) : Marker :=
  { frame_id := boxes.frame_id
    stamp := boxes.stamp
    ns := "darknet3d"
    id := counter_id
    type := MarkerType.CUBE
    action := MarkerAction.ADD
    position_x := float64 (float64 (bb.xmax + bb.xmin) / 2)
    position_y := float64 (float64 (bb.ymax + bb.ymin) / 2)
    position_z := float64 (float64 (bb.zmax + bb.zmin) / 2)
    orientation_x := 0
    orientation_y := 0
    orientation_z := 0
    orientation_w := 1
    scale_x := float64 (bb.xmax - bb.xmin)
    scale_y := float64 (bb.ymax - bb.ymin)
    scale_z := float64 (bb.zmax - bb.zmin)
    color_b := 0
    color_g := float32 (float64 (bb.probability * 255))
    color_r := float32 (float64 (float64 (1 - bb.probability) * 255))
    color_a := float32 (float64 (4 / 10))
    lifetime := 1 / 2 }

/-- The loop of `publish_markers`: the state is `counter_id` and `msg.markers`. -/
def publish_markers_loop (boxes : BoundingBoxes3d) (bbs : List BoundingBox3d) :
    Int × List Marker :=
  bbs.foldl (fun st bb => (st.1 + 1, st.2 ++ [bbx_marker boxes st.1 bb])) (0, [])

/-- The `msg.markers` that `publish_markers` hands to `markers_pub_`. -/
def publish_markers (boxes : BoundingBoxes3d) : List Marker :=
  (publish_markers_loop boxes boxes.bounding_boxes).2

/-- A `darknet_ros_msgs::BoundingBoxes`: the stamp of the image and the detections. -/
structure BoundingBoxes where
  image_stamp : Nat
  bounding_boxes : List BoundingBox

/-- What one run of `darknetCb` did: whether it warned, whether it called
`transformPointCloud`, what it published on each topic, and the outcome without a result (an
exception that left it, or undefined behaviour) that ended it. -/
structure CallbackTrace where
  warned : Bool
  transform_attempted : Bool
  published_boxes : Option BoundingBoxes3d
  published_markers : Option (List Marker)
  uncaught : Option Exn
  deriving DecidableEq

/-- The callback.  The library calls are parameters: `getElemBeforeTime` is the lookup of
`pointcloud_cache_`, the two numbers are `getNumSubscribers()` of the two publishers, and
`transformPointCloud` returns none when it throws `tf::TransformException`. -/
def darknetCb (self : Darknet3D) (getElemBeforeTime : Nat → Option PointCloud)
    (darknet3d_subscribers markers_subscribers : Nat)
    (transformPointCloud : String → PointCloud → Option PointCloud) (msg : BoundingBoxes) :
    CallbackTrace :=
  match getElemBeforeTime msg.image_stamp with
  | none => ⟨true, false, none, none, none⟩
  | some closest_pointcloud_msg =>
    if darknet3d_subscribers = 0 ∧ markers_subscribers = 0 then ⟨false, false, none, none, none⟩
    else
      match transformPointCloud self.working_frame_ closest_pointcloud_msg with
      | none => ⟨false, true, none, none, none⟩
      | some local_pointcloud =>
        match calculate_boxes self local_pointcloud msg.bounding_boxes BoundingBoxes3d.empty with
        | Except.error ex => ⟨false, true, none, none, some ex⟩
        | Except.ok boxes3d_msg =>
          ⟨false, true, some boxes3d_msg, some (publish_markers boxes3d_msg), none⟩

/-! ## The timing inside compute_center_point -/

/-- The clock `std::chrono::high_resolution_clock`: the readings it returns, and how many it
has returned. -/
structure Clock where
  readings : Nat → ℚ
  count : Nat

/-- `high_resolution_clock::now()`: the reading and the clock after it. -/
def Clock.now (clock : Clock) : ℚ × Clock :=
  (clock.readings clock.count, { clock with count := clock.count + 1 })

/-- The state outside the arguments that a run can touch: the clock and the lines written to
`std::cout` (the durations). -/
structure World where
  clock : Clock
  cout : List ℚ

/-- `compute_center_point` with its two clock readings and its output line: `start` is read on
entry; `end` is read, and the duration printed, only when some sample survived. -/
@[irreducible] def compute_center_point_timed (world : World) (cloud : PointCloud) (box2d : BoundingBox) :
    Except Exn (PointXYZRGB × World) :=
  match sample_points cloud box2d with
  | Except.error e => Except.error e
  | Except.ok [] => Except.ok (PointXYZRGB.zero, { world with clock := world.clock.now.2 })
  | Except.ok (p0 :: rest) =>
    Except.ok (min_x_loop p0 (p0 :: rest),
      { clock := world.clock.now.2.now.2
        cout := world.cout ++ [world.clock.now.2.now.1 - world.clock.now.1] })

/-- One iteration of the detection loop, with the world. -/
def estimate_timed (self : Darknet3D) (world : World) (cloud : PointCloud) (bbx : BoundingBox) :
    Except Exn (BoundingBox3d × World) :=
  match compute_center_point_timed world cloud bbx with
  | Except.error ex => Except.error ex
  | Except.ok (center_point, world1) =>
    match dense_scan self cloud center_point bbx with
    | Except.error ex => Except.error ex
    | Except.ok e => Except.ok (bbx_msg bbx e, world1)

/-- The detection loop, with the world. -/
def detection_loop_timed (self : Darknet3D) (cloud : PointCloud) :
    List BoundingBox → List BoundingBox3d → World → Except Exn (List BoundingBox3d × World)
  | [], out, world => Except.ok (out, world)
  | bbx :: rest, out, world =>
    if skipped self bbx then detection_loop_timed self cloud rest out world
    else
      match estimate_timed self world cloud bbx with
      | Except.error ex => Except.error ex
      | Except.ok (b, world1) => detection_loop_timed self cloud rest (out ++ [b]) world1

/-- `calculate_boxes`, with the world before the call and after it. -/
def calculate_boxes_timed (self : Darknet3D) (world : World) (cloud : PointCloud)
    (boxes2d : List BoundingBox) (boxes : BoundingBoxes3d) :
    Except Exn (BoundingBoxes3d × World) :=
  match detection_loop_timed self cloud boxes2d boxes.bounding_boxes world with
  | Except.error ex => Except.error ex
  | Except.ok (out, world1) =>
    Except.ok ({ stamp := cloud.stamp, frame_id := self.working_frame_, bounding_boxes := out },
      world1)

/-! ## Vocabulary of the end-to-end scenario -/

/-- A cloud entry that is a valid point with `z = 1`. -/
def ValidAtZ1 : Option PointXYZRGB → Prop
  | none => False
  | some p => p.z = 1

instance : DecidablePred ValidAtZ1 := fun e => by
  cases e <;> unfold ValidAtZ1 <;> infer_instance

/-- The point `p` is the valid point of a pixel of the rectangle `[xmin, xmax) × [ymin, ymax)`. -/
def InBox (cloud : PointCloud) (bbx : BoundingBox) (p : PointXYZRGB) : Prop :=
  ∃ x y : Int, (bbx.xmin ≤ x ∧ x < bbx.xmax) ∧ (bbx.ymin ≤ y ∧ y < bbx.ymax) ∧
    pixel cloud x y = some (some p)

/-- A 4 × 4 cloud, all points valid with `z = 1`; the point of column `c`, row `r` is
`(c, r, 1)`. -/
def cloud_ramp : PointCloud :=
  ⟨7, 4, 4,
    [some ⟨0, 0, 1⟩, some ⟨1, 0, 1⟩, some ⟨2, 0, 1⟩, some ⟨3, 0, 1⟩,
     some ⟨0, 1, 1⟩, some ⟨1, 1, 1⟩, some ⟨2, 1, 1⟩, some ⟨3, 1, 1⟩,
     some ⟨0, 2, 1⟩, some ⟨1, 2, 1⟩, some ⟨2, 2, 1⟩, some ⟨3, 2, 1⟩,
     some ⟨0, 3, 1⟩, some ⟨1, 3, 1⟩, some ⟨2, 3, 1⟩, some ⟨3, 3, 1⟩]⟩

/-- A 4 × 4 cloud, all points valid with `z = 1`; the point of column `c`, row `r` is
`(1 + c / 4, r, 1)`. -/
def cloud_flat : PointCloud :=
  ⟨7, 4, 4,
    [some ⟨1, 0, 1⟩, some ⟨5 / 4, 0, 1⟩, some ⟨3 / 2, 0, 1⟩, some ⟨7 / 4, 0, 1⟩,
     some ⟨1, 1, 1⟩, some ⟨5 / 4, 1, 1⟩, some ⟨3 / 2, 1, 1⟩, some ⟨7 / 4, 1, 1⟩,
     some ⟨1, 2, 1⟩, some ⟨5 / 4, 2, 1⟩, some ⟨3 / 2, 2, 1⟩, some ⟨7 / 4, 2, 1⟩,
     some ⟨1, 3, 1⟩, some ⟨5 / 4, 3, 1⟩, some ⟨3 / 2, 3, 1⟩, some ⟨7 / 4, 3, 1⟩]⟩

/-- The detection of scenario 1: confidence 0.9, allowed class, `x ∈ [0,2)`, `y ∈ [0,2)`. -/
def box_scenario : BoundingBox := ⟨"person", 9 / 10, 0, 0, 2, 2⟩

/-- The cache after `cloud_full` (stamped 7) was inserted into the empty cache. -/
def cache_full : FrameCache := pointcloud_cache_.insert cloud_full

/-- A batch stamped 9 whose first detection extends past the bottom edge of `cloud_full`. -/
def msg_past_bottom : BoundingBoxes := ⟨9, [box_past_bottom, box_full]⟩

/-- A `transformPointCloud` that succeeds and leaves the cloud as it is. -/
def transform_id : String → PointCloud → Option PointCloud := fun _ cloud => some cloud

/-- A batch of three boxes for the markers. -/
def boxes_three : BoundingBoxes3d :=
  ⟨7, "/camera_link",
    [⟨"person", 9 / 10, 1, 3, 0, 6, 0, 0⟩, ⟨"person", 1 / 2, 0, 1, 0, 1, 1, 1⟩, sentinel_box]⟩

/-! ## Auxiliary facts -/

theorem pow2_eq_zpow (e : Int) : pow2 e = (2 : ℚ) ^ e := by
  unfold pow2
  split
  · rename_i h
    have : e = ((e.toNat : Nat) : Int) := (Int.toNat_of_nonneg h).symm
    conv_rhs => rw [this]
    rw [zpow_natCast]
    push_cast
    rfl
  · rename_i h
    have h2 : 0 ≤ -e := by omega
    have : e = -(((-e).toNat : Nat) : Int) := by rw [Int.toNat_of_nonneg h2]; omega
    conv_rhs => rw [this]
    rw [zpow_neg, zpow_natCast]
    push_cast
    rw [one_div]

theorem pow2_pos (e : Int) : 0 < pow2 e := by
  rw [pow2_eq_zpow]
  positivity

theorem halvings_spec (fuel n : Nat) (hf : n ≤ fuel) (hn : 1 ≤ n) :
    2 ^ halvings fuel n ≤ n ∧ n < 2 ^ (halvings fuel n + 1) := by
  induction fuel generalizing n with
  | zero => omega
  | succ fuel ih =>
    unfold halvings
    by_cases h1 : n ≤ 1
    · rw [if_pos h1]
      have : n = 1 := by omega
      subst this
      norm_num
    · rw [if_neg h1]
      obtain ⟨h2, h3⟩ := ih (n / 2) (by omega) (by omega)
      constructor
      · rw [pow_succ]
        omega
      · rw [pow_succ]
        omega

theorem nat_log2_spec (n : Nat) (hn : 1 ≤ n) :
    2 ^ nat_log2 n ≤ n ∧ n < 2 ^ (nat_log2 n + 1) :=
  halvings_spec n n (le_refl n) hn

theorem pow2_ilog2_le (q : ℚ) (hq : q ≠ 0) : pow2 (ilog2 q) ≤ |q| := by
  unfold ilog2
  split
  · assumption
  · have hn : 1 ≤ q.num.natAbs := by
      have : q.num ≠ 0 := Rat.num_ne_zero.mpr hq
      omega
    have hd : 1 ≤ q.den := q.den_pos
    obtain ⟨hn1, _⟩ := nat_log2_spec q.num.natAbs hn
    obtain ⟨_, hd2⟩ := nat_log2_spec q.den hd
    rw [pow2_eq_zpow]
    have habs : |q| = (q.num.natAbs : ℚ) / (q.den : ℚ) := by
      rw [← Rat.num_div_den q, abs_div]
      simp [Nat.cast_natAbs, Rat.num_div_den]
    rw [habs]
    have e1 : ((nat_log2 q.num.natAbs : Int) - (nat_log2 q.den : Int) - 1)
        = (nat_log2 q.num.natAbs : Int) - ((nat_log2 q.den + 1 : Nat) : Int) := by
      push_cast
      ring
    rw [e1, zpow_sub₀ (by norm_num), zpow_natCast, zpow_natCast]
    have hdq : (0 : ℚ) < (q.den : ℚ) := by exact_mod_cast hd
    have h1 : ((2 : ℚ) ^ nat_log2 q.num.natAbs) ≤ (q.num.natAbs : ℚ) := by exact_mod_cast hn1
    have h2 : (q.den : ℚ) ≤ (2 : ℚ) ^ (nat_log2 q.den + 1) := by exact_mod_cast hd2.le
    rw [div_le_div_iff₀ (by positivity) hdq]
    exact mul_le_mul h1 h2 hdq.le (by positivity)

theorem round_half_even_le (r : ℚ) : (round_half_even r : ℚ) ≤ r + 1 / 2 := by
  have h1 : (⌊r⌋ : ℚ) ≤ r := Int.floor_le r
  unfold round_half_even
  split
  · linarith
  · split
    · push_cast
      rename_i h2 h3
      linarith
    · rename_i h2 h3
      have h4 : r - ⌊r⌋ = 1 / 2 := le_antisymm (not_lt.mp h3) (not_lt.mp h2)
      split
      · linarith
      · push_cast
        linarith

theorem round_half_even_nonneg (r : ℚ) (hr : 0 ≤ r) : 0 ≤ round_half_even r := by
  have h0 : (0 : Int) ≤ ⌊r⌋ := Int.floor_nonneg.mpr hr
  unfold round_half_even
  split
  · exact h0
  · split
    · omega
    · split
      · exact h0
      · omega

theorem round_float_zero (prec : Nat) (emin : Int) : round_float prec emin 0 = 0 := by
  simp [round_float]

theorem round_float_nonneg (prec : Nat) (emin : Int) (q : ℚ) (hq : 0 ≤ q) :
    0 ≤ round_float prec emin q := by
  unfold round_float
  split
  · exact le_refl 0
  · have hp := pow2_pos (max (ilog2 q) emin - ((prec : Int) - 1))
    have h1 : (0 : ℚ) ≤ q / pow2 (max (ilog2 q) emin - ((prec : Int) - 1)) := by positivity
    have h2 : (0 : ℚ) ≤ (round_half_even (q / pow2 (max (ilog2 q) emin - ((prec : Int) - 1))) : ℚ) := by
      exact_mod_cast round_half_even_nonneg _ h1
    positivity

/-- Rounding a non-negative value moves it up by at most half a unit in the last place. -/
theorem round_float_le (prec : Nat) (emin : Int) (q : ℚ) (hq : 0 ≤ q) :
    round_float prec emin q ≤ q + (q + pow2 emin) * pow2 (-(prec : Int)) := by
  by_cases h0 : q = 0
  · subst h0
    rw [round_float_zero]
    have := pow2_pos emin
    have := pow2_pos (-(prec : Int))
    positivity
  · have hqpos : 0 < q := lt_of_le_of_ne hq (Ne.symm h0)
    unfold round_float
    rw [if_neg h0]
    have hu := pow2_pos (max (ilog2 q) emin - ((prec : Int) - 1))
    have hr := round_half_even_le (q / pow2 (max (ilog2 q) emin - ((prec : Int) - 1)))
    have h1 : (round_half_even (q / pow2 (max (ilog2 q) emin - ((prec : Int) - 1))) : ℚ)
        * pow2 (max (ilog2 q) emin - ((prec : Int) - 1))
        ≤ q + pow2 (max (ilog2 q) emin - ((prec : Int) - 1)) / 2 := by
      have := mul_le_mul_of_nonneg_right hr hu.le
      rw [add_mul, div_mul_cancel₀ _ hu.ne'] at this
      linarith
    have h2 : pow2 (max (ilog2 q) emin - ((prec : Int) - 1)) / 2
        = pow2 (max (ilog2 q) emin) * pow2 (-(prec : Int)) := by
      rw [pow2_eq_zpow, pow2_eq_zpow, pow2_eq_zpow, ← zpow_add₀ (by norm_num : (2 : ℚ) ≠ 0)]
      have : max (ilog2 q) emin - ((prec : Int) - 1) = (max (ilog2 q) emin + -(prec : Int)) + 1 := by
        ring
      rw [this, zpow_add_one₀ (by norm_num : (2 : ℚ) ≠ 0)]
      ring
    have h3 : pow2 (max (ilog2 q) emin) ≤ q + pow2 emin := by
      have hl := pow2_ilog2_le q h0
      rw [abs_of_pos hqpos] at hl
      have he := pow2_pos emin
      rcases max_choice (ilog2 q) emin with h | h
      · rw [h]
        linarith
      · rw [h]
        linarith
    rw [h2] at h1
    have hp := pow2_pos (-(prec : Int))
    have := mul_le_mul_of_nonneg_right h3 hp.le
    linarith

theorem float32_nonneg (q : ℚ) (hq : 0 ≤ q) : 0 ≤ float32 q :=
  round_float_nonneg 24 (-126) q hq

theorem float32_le (q : ℚ) (hq : 0 ≤ q) : float32 q ≤ q + (q + 1) / 16777216 := by
  have h := round_float_le 24 (-126) q hq
  have h1 : pow2 (-((24 : Nat) : Int)) = 1 / 16777216 := by
    rw [pow2_eq_zpow]
    norm_num
  have h2 : pow2 (-126) ≤ 1 := by
    rw [pow2_eq_zpow]
    have : (2 : ℚ) ^ (-126 : Int) = 1 / 2 ^ (126 : Nat) := by
      rw [zpow_neg, one_div]
      norm_cast
    rw [this]
    rw [div_le_one (by positivity)]
    norm_num
  rw [h1] at h
  unfold float32
  have : (q + pow2 (-126)) * (1 / 16777216) ≤ (q + 1) / 16777216 := by
    rw [mul_one_div]
    exact div_le_div_of_nonneg_right (by linarith) (by norm_num)
  linarith


theorem to_int_of_range (n : Int) (h0 : 0 ≤ n) (h1 : n < 2 ^ 31) : to_int n = n := by
  unfold to_int
  omega

theorem to_int_to_int (n : Int) : to_int (to_int n) = to_int n := by
  unfold to_int
  omega

theorem to_int64_of_range (n : Int) (h0 : 0 ≤ n) (h1 : n < 2 ^ 63) : to_int64 n = n := by
  unfold to_int64
  omega

theorem new_x_of_step_zero (box2d : BoundingBox) (i : Int) (hw : width_step box2d = 0) :
    new_x box2d i = center_x box2d := by
  unfold new_x
  rw [hw, mul_zero, add_zero]
  unfold center_x
  exact to_int_to_int _

theorem new_y_of_step_zero (box2d : BoundingBox) (j : Int) (hh : height_step box2d = 0) :
    new_y box2d j = center_y box2d := by
  unfold new_y
  rw [hh, mul_zero, add_zero]
  unfold center_y
  exact to_int_to_int _

theorem row_major_lt (w h : Nat) (x y : Int) (hx0 : 0 ≤ x) (hx : x < w) (hy0 : 0 ≤ y)
    (hy : y < h) : 0 ≤ y * w + x ∧ y * w + x < (w * h : Nat) := by
  constructor
  · positivity
  · have h1 : y + 1 ≤ h := by omega
    have h2 : (y + 1) * w ≤ h * w := Int.mul_le_mul_of_nonneg_right h1 (by positivity)
    push_cast
    nlinarith

theorem pcl_index_in_frame (cloud : PointCloud) (hwf : WellFormed cloud) (x y : Int)
    (hin : InFrame cloud x y) :
    pcl_index cloud y x = y * cloud.width + x ∧ 0 ≤ y * (cloud.width : Int) + x ∧
      (y * (cloud.width : Int) + x).toNat < cloud.points.length := by
  obtain ⟨hx0, hx, hy0, hy⟩ := hin
  obtain ⟨hlen, hsz⟩ := hwf
  obtain ⟨h0, h1⟩ := row_major_lt cloud.width cloud.height x y hx0 hx hy0 hy
  have h2 : y * (cloud.width : Int) + x < 2 ^ 31 := by
    have : ((cloud.width * cloud.height : Nat) : Int) < 2 ^ 31 := by exact_mod_cast hsz
    omega
  refine ⟨to_int_of_range _ h0 h2, h0, ?_⟩
  rw [hlen]
  omega

theorem cloud_at_in_frame (cloud : PointCloud) (hwf : WellFormed cloud) (x y : Int)
    (hin : InFrame cloud x y) :
    ∃ e, pixel cloud x y = some e ∧ cloud_at cloud (pcl_index cloud y x) = Except.ok e := by
  obtain ⟨hidx, h0, hlt⟩ := pcl_index_in_frame cloud hwf x y hin
  refine ⟨cloud.points[(y * (cloud.width : Int) + x).toNat], ?_, ?_⟩
  · simp [pixel, List.getElem?_eq_getElem hlt]
  · rw [hidx]
    unfold cloud_at
    rw [if_neg (by omega)]
    simp [List.getElem?_eq_getElem hlt]

theorem mem_int_range (lo hi k : Int) : k ∈ int_range lo hi ↔ lo ≤ k ∧ k < hi := by
  unfold int_range
  simp only [List.mem_map, List.mem_range]
  constructor
  · rintro ⟨n, hn, rfl⟩
    have h1 : (n : Int) < hi - lo := Int.lt_toNat.mp hn
    omega
  · rintro ⟨h1, h2⟩
    refine ⟨(k - lo).toNat, ?_, ?_⟩
    · apply Int.lt_toNat.mpr
      rw [Int.toNat_of_nonneg (by omega)]
      omega
    · rw [Int.toNat_of_nonneg (by omega)]
      omega

theorem collect_ok {α : Type} (body : Int → Except Exn (List α)) (ks : List Int)
    (h : ∀ k ∈ ks, ∃ r, body k = Except.ok r) :
    ∃ l, collect body ks = Except.ok l ∧
      ∀ p, p ∈ l ↔ ∃ k ∈ ks, ∃ r, body k = Except.ok r ∧ p ∈ r := by
  induction ks with
  | nil => exact ⟨[], rfl, by simp⟩
  | cons k ks ih =>
    obtain ⟨r, hr⟩ := h k (List.mem_cons_self k ks)
    obtain ⟨l, hl, hmem⟩ := ih (fun k1 hk1 => h k1 (List.mem_cons_of_mem k hk1))
    refine ⟨r ++ l, by simp [collect, hr, hl], ?_⟩
    intro p
    simp only [List.mem_append, hmem, List.mem_cons]
    constructor
    · rintro (hp | ⟨k1, hk1, r1, hr1, hp⟩)
      · exact ⟨k, Or.inl rfl, r, hr, hp⟩
      · exact ⟨k1, Or.inr hk1, r1, hr1, hp⟩
    · rintro ⟨k1, hk1 | hk1, r1, hr1, hp⟩
      · subst hk1
        rw [hr] at hr1
        cases hr1
        exact Or.inl hp
      · exact Or.inr ⟨k1, hk1, r1, hr1, hp⟩

theorem sample_in_frame (cloud : PointCloud) (hwf : WellFormed cloud) (x y : Int) :
    ∃ r, sample cloud x y = Except.ok r ∧
      ∀ p, p ∈ r ↔ InFrame cloud x y ∧ pixel cloud x y = some (some p) := by
  by_cases hin : InFrame cloud x y
  · obtain ⟨e, hpix, hat⟩ := cloud_at_in_frame cloud hwf x y hin
    have hguard : ¬ (x < 0 ∨ x ≥ (cloud.width : Int) ∨ y < 0 ∨ y ≥ (cloud.height : Int)) := by
      obtain ⟨h1, h2, h3, h4⟩ := hin
      omega
    cases e with
    | none =>
      refine ⟨[], by simp [sample, hguard, hat], ?_⟩
      intro p
      simp [hpix]
    | some q =>
      refine ⟨[q], by simp [sample, hguard, hat], ?_⟩
      intro p
      simp [hpix, hin, eq_comm]
  · have hguard : x < 0 ∨ x ≥ (cloud.width : Int) ∨ y < 0 ∨ y ≥ (cloud.height : Int) := by
      unfold InFrame at hin
      omega
    refine ⟨[], by simp [sample, hguard], ?_⟩
    intro p
    simp [hin]

theorem min_x_loop_spec (points : List PointXYZRGB) (m : PointXYZRGB) :
    (min_x_loop m points = m ∨ min_x_loop m points ∈ points) ∧
      (min_x_loop m points).x ≤ m.x ∧ ∀ q ∈ points, (min_x_loop m points).x ≤ q.x := by
  induction points generalizing m with
  | nil => simp [min_x_loop]
  | cons p ps ih =>
    have hstep : min_x_loop m (p :: ps) = min_x_loop (if p.x < m.x then p else m) ps := by
      simp [min_x_loop]
    rw [hstep]
    obtain ⟨h1, h2, h3⟩ := ih (if p.x < m.x then p else m)
    by_cases hlt : p.x < m.x
    · simp only [hlt, if_true] at h1 h2 h3 ⊢
      refine ⟨?_, by linarith, ?_⟩
      · rcases h1 with h1 | h1
        · exact Or.inr (by rw [h1]; exact List.mem_cons_self p ps)
        · exact Or.inr (List.mem_cons_of_mem p h1)
      · intro q hq
        rcases List.mem_cons.mp hq with rfl | hq
        · exact h2
        · exact h3 q hq
    · simp only [hlt, if_false] at h1 h2 h3 ⊢
      refine ⟨?_, h2, ?_⟩
      · rcases h1 with h1 | h1
        · exact Or.inl h1
        · exact Or.inr (List.mem_cons_of_mem p h1)
      · intro q hq
        rcases List.mem_cons.mp hq with rfl | hq
        · linarith
        · exact h3 q hq

theorem sample_range_eq :
    int_range (Int.tdiv (-num_samples) 2) (Int.tdiv num_samples 2 + 1) = int_range (-250) 251 := by
  have h1 : Int.tdiv (-num_samples) 2 = -250 := by decide
  have h2 : Int.tdiv num_samples 2 + 1 = 251 := by decide
  rw [h1, h2]

theorem sample_points_spec (cloud : PointCloud) (hwf : WellFormed cloud) (box2d : BoundingBox) :
    ∃ l, sample_points cloud box2d = Except.ok l ∧ ∀ p, p ∈ l ↔ SparseSample cloud box2d p := by
  unfold sample_points
  rw [sample_range_eq]
  have hinner : ∀ i : Int, ∃ l, collect (fun j =>
      sample cloud (new_x box2d i)
        (new_y box2d j)) (int_range (-250) 251) = Except.ok l ∧
      ∀ p, p ∈ l ↔ ∃ j : Int, (-250 ≤ j ∧ j ≤ 250) ∧
        InFrame cloud (new_x box2d i)
          (new_y box2d j) ∧
        pixel cloud (new_x box2d i)
          (new_y box2d j) = some (some p) := by
    intro i
    obtain ⟨l, hl, hmem⟩ := collect_ok (fun j =>
      sample cloud (new_x box2d i)
        (new_y box2d j)) (int_range (-250) 251)
      (fun j _ => by
        obtain ⟨r, hr, _⟩ := sample_in_frame cloud hwf (new_x box2d i)
          (new_y box2d j)
        exact ⟨r, hr⟩)
    refine ⟨l, hl, ?_⟩
    intro p
    rw [hmem]
    constructor
    · rintro ⟨j, hj, r, hr, hp⟩
      obtain ⟨r1, hr1, hspec⟩ := sample_in_frame cloud hwf
        (new_x box2d i) (new_y box2d j)
      rw [hr1] at hr
      cases hr
      rw [mem_int_range] at hj
      exact ⟨j, ⟨hj.1, by omega⟩, (hspec p).mp hp⟩
    · rintro ⟨j, hj, hin, hpix⟩
      obtain ⟨r1, hr1, hspec⟩ := sample_in_frame cloud hwf
        (new_x box2d i) (new_y box2d j)
      exact ⟨j, (mem_int_range _ _ _).mpr ⟨hj.1, by omega⟩, r1, hr1, (hspec p).mpr ⟨hin, hpix⟩⟩
  obtain ⟨l, hl, hmem⟩ := collect_ok (fun i => collect (fun j =>
      sample cloud (new_x box2d i)
        (new_y box2d j)) (int_range (-250) 251)) (int_range (-250) 251)
    (fun i _ => by
      obtain ⟨r, hr, _⟩ := hinner i
      exact ⟨r, hr⟩)
  refine ⟨l, hl, ?_⟩
  intro p
  rw [hmem]
  constructor
  · rintro ⟨i, hi, r, hr, hp⟩
    obtain ⟨r1, hr1, hspec⟩ := hinner i
    rw [hr1] at hr
    cases hr
    rw [mem_int_range] at hi
    obtain ⟨j, hj, hin, hpix⟩ := (hspec p).mp hp
    exact ⟨i, j, ⟨hi.1, by omega⟩, hj, hin, hpix⟩
  · rintro ⟨i, j, hi, hj, hin, hpix⟩
    obtain ⟨r1, hr1, hspec⟩ := hinner i
    exact ⟨i, (mem_int_range _ _ _).mpr ⟨hi.1, by omega⟩, r1, hr1,
      (hspec p).mpr ⟨j, hj, hin, hpix⟩⟩

theorem collect_const_nil {α : Type} (ks : List Int) :
    collect (fun _ => Except.ok ([] : List α)) ks = Except.ok [] := by
  induction ks with
  | nil => rfl
  | cons k ks ih => simp [collect, ih]

theorem collect_const_error {α : Type} (e : Exn) (k : Int) (ks : List Int) :
    collect (fun _ => (Except.error e : Except Exn (List α))) (k :: ks) = Except.error e := by
  simp [collect]

theorem collect_const_cons {α : Type} (p : α) (t : List α) (ks : List Int) :
    ∃ l, collect (fun _ => Except.ok (p :: t)) ks = Except.ok l ∧ ∀ q ∈ l, q ∈ p :: t := by
  induction ks with
  | nil => exact ⟨[], rfl, by simp⟩
  | cons k ks ih =>
    obtain ⟨l, hl, hmem⟩ := ih
    refine ⟨(p :: t) ++ l, by simp [collect, hl], ?_⟩
    intro q hq
    rcases List.mem_append.mp hq with h | h
    · exact h
    · exact hmem q h

theorem sample_range_cons : ∃ k ks, int_range (-250) 251 = k :: ks := by
  cases h : int_range (-250) 251 with
  | nil =>
    have h0 : (0 : Int) ∈ int_range (-250) 251 := (mem_int_range _ _ _).mpr (by omega)
    rw [h] at h0
    exact absurd h0 (List.not_mem_nil 0)
  | cons k ks => exact ⟨k, ks, rfl⟩

theorem sample_shape (cloud : PointCloud) (x y : Int) (r : List PointXYZRGB)
    (h : sample cloud x y = Except.ok r) : r = [] ∨ ∃ p, r = [p] := by
  unfold sample at h
  split at h
  · cases h
    exact Or.inl rfl
  · split at h
    · cases h
    · cases h
      exact Or.inl rfl
    · cases h
      exact Or.inr ⟨_, rfl⟩

/-- With both strides zero every one of the 501 × 501 samples is the centre pixel, so the
result is decided by that pixel alone. -/
theorem compute_center_point_steps_zero (cloud : PointCloud) (box2d : BoundingBox)
    (hw : width_step box2d = 0) (hh : height_step box2d = 0) :
    compute_center_point cloud box2d =
      match sample cloud (center_x box2d) (center_y box2d) with
      | Except.error e => Except.error e
      | Except.ok [] => Except.ok PointXYZRGB.zero
      | Except.ok (p :: _) => Except.ok p := by
  unfold compute_center_point sample_points
  rw [sample_range_eq]
  simp only [new_x_of_step_zero box2d _ hw, new_y_of_step_zero box2d _ hh]
  obtain ⟨k, ks, hks⟩ := sample_range_cons
  rw [hks]
  cases hs : sample cloud (center_x box2d) (center_y box2d) with
  | error e => simp [collect_const_error]
  | ok r =>
    rcases sample_shape cloud _ _ r hs with rfl | ⟨p, rfl⟩
    · simp [collect_const_nil]
    · obtain ⟨l1, hl1, hm1⟩ := collect_const_cons p [] ks
      have hinner : collect (fun _ => (Except.ok [p] : Except Exn (List PointXYZRGB))) (k :: ks)
          = Except.ok (p :: l1) := by simp [collect, hl1]
      rw [hinner]
      obtain ⟨l2, hl2, hm2⟩ := collect_const_cons p l1 ks
      have houter : collect (fun _ => (Except.ok (p :: l1) : Except Exn (List PointXYZRGB)))
          (k :: ks) = Except.ok (p :: (l1 ++ l2)) := by simp [collect, hl2]
      rw [houter]
      have hall : ∀ q ∈ p :: (l1 ++ l2), q = p := by
        intro q hq
        rcases List.mem_cons.mp hq with h | h
        · exact h
        · rcases List.mem_append.mp h with h | h
          · simpa using hm1 q h
          · rcases List.mem_cons.mp (hm2 q h) with h | h
            · exact h
            · simpa using hm1 q h
      obtain ⟨h1, _, _⟩ := min_x_loop_spec (p :: (l1 ++ l2)) p
      have : min_x_loop p (p :: (l1 ++ l2)) = p := by
        rcases h1 with h1 | h1
        · exact h1
        · exact hall _ h1
      simp [this]

theorem mem_kept_points (self : Darknet3D) (cloud : PointCloud) (anchor : PointXYZRGB)
    (bbx : BoundingBox) (p : PointXYZRGB) :
    p ∈ kept_points self cloud anchor bbx ↔ Survives self cloud anchor bbx p := by
  unfold kept_points Survives
  simp only [List.mem_flatMap, List.mem_filterMap, mem_int_range]
  constructor
  · rintro ⟨x, hx, y, hy, hk⟩
    refine ⟨x, y, hx, hy, ?_⟩
    unfold kept at hk
    split at hk
    · rename_i q hq
      split at hk
      · cases hk
      · cases hk
        exact ⟨hq, by assumption⟩
    · cases hk
  · rintro ⟨x, y, hx, hy, hpix, hthr⟩
    exact ⟨x, hx, y, hy, by simp [kept, hpix, hthr]⟩

theorem for_loop_pure {σ : Type} (body : Int → σ → Except Exn σ) (g : σ → Int → σ)
    (ks : List Int) (h : ∀ k ∈ ks, ∀ s, body k s = Except.ok (g s k)) (s : σ) :
    for_loop body ks s = Except.ok (ks.foldl g s) := by
  induction ks generalizing s with
  | nil => rfl
  | cons k ks ih =>
    simp only [for_loop, h k (List.mem_cons_self k ks) s, List.foldl_cons]
    exact ih (fun k1 hk1 => h k1 (List.mem_cons_of_mem k hk1)) (g s k)

theorem foldl_filterMap_update (f : Int → Option PointXYZRGB) (ks : List Int) (e : Extent) :
    ks.foldl (fun e1 k => match f k with
      | some p => e1.update p
      | none => e1) e = (ks.filterMap f).foldl Extent.update e := by
  induction ks generalizing e with
  | nil => rfl
  | cons k ks ih =>
    simp only [List.foldl_cons, List.filterMap_cons]
    cases hf : f k with
    | none => simpa using ih e
    | some p => simpa using ih (e.update p)

theorem foldl_flatMap_update (f : Int → List PointXYZRGB) (ks : List Int) (e : Extent) :
    ks.foldl (fun e1 k => (f k).foldl Extent.update e1) e
      = (ks.flatMap f).foldl Extent.update e := by
  induction ks generalizing e with
  | nil => rfl
  | cons k ks ih =>
    simp only [List.foldl_cons, List.flatMap_cons, List.foldl_append]
    exact ih _

theorem scan_pixel_in_frame (self : Darknet3D) (cloud : PointCloud) (hwf : WellFormed cloud)
    (anchor : PointXYZRGB) (i j : Int) (hin : InFrame cloud i j) (e : Extent) :
    scan_pixel self cloud anchor i j e = Except.ok (match kept self cloud anchor i j with
      | some p => e.update p
      | none => e) := by
  obtain ⟨en, hpix, hat⟩ := cloud_at_in_frame cloud hwf i j hin
  unfold scan_pixel kept
  rw [hat, hpix]
  cases en with
  | none => rfl
  | some q =>
    by_cases hthr : exceeds q.x anchor.x self.mininum_detection_thereshold_
    · simp [hthr]
    · simp [hthr]

theorem int_counter_loop_of_fit {σ : Type} (lo hi : Int) (body : Int → σ → Except Exn σ)
    (s : σ) (h : 0 ≤ lo ∧ lo < 2 ^ 31 ∧ hi < 2 ^ 31) :
    int_counter_loop lo hi body s = for_loop body (int_range lo hi) s := by
  unfold int_counter_loop
  rw [to_int_of_range lo h.1 h.2.1, min_eq_left h.2.2.le]
  cases for_loop body (int_range lo hi) s with
  | error e => rfl
  | ok s1 => exact if_neg (by omega)

/-- For a rectangle whose coordinates fit an `int` the counters of the dense scan take the
values of `[xmin, xmax)` and `[ymin, ymax)`. -/
theorem dense_scan_of_fit (self : Darknet3D) (cloud : PointCloud) (center_point : PointXYZRGB)
    (bbx : BoundingBox) (hx : 0 ≤ bbx.xmin ∧ bbx.xmin < 2 ^ 31 ∧ bbx.xmax < 2 ^ 31)
    (hy : 0 ≤ bbx.ymin ∧ bbx.ymin < 2 ^ 31 ∧ bbx.ymax < 2 ^ 31) :
    dense_scan self cloud center_point bbx =
      for_loop (fun i e =>
        for_loop (fun j e1 => scan_pixel self cloud center_point i j e1)
          (int_range bbx.ymin bbx.ymax) e)
        (int_range bbx.xmin bbx.xmax) Extent.init := by
  unfold dense_scan
  rw [int_counter_loop_of_fit _ _ _ _ hx]
  congr 1
  funext i e
  exact int_counter_loop_of_fit _ _ _ _ hy

theorem dense_scan_in_frame (self : Darknet3D) (cloud : PointCloud) (hwf : WellFormed cloud)
    (anchor : PointXYZRGB) (bbx : BoundingBox) (hrect : RectInFrame cloud bbx) :
    dense_scan self cloud anchor bbx
      = Except.ok ((kept_points self cloud anchor bbx).foldl Extent.update Extent.init) := by
  obtain ⟨hx0, hx1, hy0, hy1, hfx0, hfx1, hfy0, hfy1⟩ := hrect
  rw [dense_scan_of_fit self cloud anchor bbx ⟨hx0, hfx0, hfx1⟩ ⟨hy0, hfy0, hfy1⟩]
  unfold kept_points
  rw [← foldl_flatMap_update]
  apply for_loop_pure
  intro i hi e
  rw [mem_int_range] at hi
  rw [← foldl_filterMap_update]
  apply for_loop_pure
  intro j hj e1
  rw [mem_int_range] at hj
  exact scan_pixel_in_frame self cloud hwf anchor i j ⟨by omega, by omega, by omega, by omega⟩ e1

theorem fold_std_max (f : PointXYZRGB → ℚ) (l : List PointXYZRGB) (m0 : ℚ) :
    m0 ≤ l.foldl (fun m p => std_max (f p) m) m0 ∧
      (∀ p ∈ l, f p ≤ l.foldl (fun m p => std_max (f p) m) m0) ∧
      (l.foldl (fun m p => std_max (f p) m) m0 = m0 ∨
        ∃ p ∈ l, f p = l.foldl (fun m p => std_max (f p) m) m0) := by
  induction l generalizing m0 with
  | nil => simp
  | cons a l ih =>
    simp only [List.foldl_cons]
    obtain ⟨h1, h2, h3⟩ := ih (std_max (f a) m0)
    have hm : m0 ≤ std_max (f a) m0 ∧ f a ≤ std_max (f a) m0 ∧
        (std_max (f a) m0 = m0 ∨ std_max (f a) m0 = f a) := by
      unfold std_max
      split <;> constructor <;> try constructor
      all_goals first | exact Or.inl rfl | exact Or.inr rfl | linarith
    refine ⟨le_trans hm.1 h1, ?_, ?_⟩
    · intro p hp
      rcases List.mem_cons.mp hp with rfl | hp
      · exact le_trans hm.2.1 h1
      · exact h2 p hp
    · rcases h3 with h3 | ⟨p, hp, h3⟩
      · rcases hm.2.2 with h4 | h4
        · exact Or.inl (h3.trans h4)
        · exact Or.inr ⟨a, List.mem_cons_self a l, (h3.trans h4).symm⟩
      · exact Or.inr ⟨p, List.mem_cons_of_mem a hp, h3⟩

theorem fold_std_min (f : PointXYZRGB → ℚ) (l : List PointXYZRGB) (m0 : ℚ) :
    l.foldl (fun m p => std_min (f p) m) m0 ≤ m0 ∧
      (∀ p ∈ l, l.foldl (fun m p => std_min (f p) m) m0 ≤ f p) ∧
      (l.foldl (fun m p => std_min (f p) m) m0 = m0 ∨
        ∃ p ∈ l, f p = l.foldl (fun m p => std_min (f p) m) m0) := by
  induction l generalizing m0 with
  | nil => simp
  | cons a l ih =>
    simp only [List.foldl_cons]
    obtain ⟨h1, h2, h3⟩ := ih (std_min (f a) m0)
    have hm : std_min (f a) m0 ≤ m0 ∧ std_min (f a) m0 ≤ f a ∧
        (std_min (f a) m0 = m0 ∨ std_min (f a) m0 = f a) := by
      unfold std_min
      split <;> constructor <;> try constructor
      all_goals first | exact Or.inl rfl | exact Or.inr rfl | linarith
    refine ⟨le_trans h1 hm.1, ?_, ?_⟩
    · intro p hp
      rcases List.mem_cons.mp hp with rfl | hp
      · exact le_trans h1 hm.2.1
      · exact h2 p hp
    · rcases h3 with h3 | ⟨p, hp, h3⟩
      · rcases hm.2.2 with h4 | h4
        · exact Or.inl (h3.trans h4)
        · exact Or.inr ⟨a, List.mem_cons_self a l, (h3.trans h4).symm⟩
      · exact Or.inr ⟨p, List.mem_cons_of_mem a hp, h3⟩

theorem extent_fold_proj (l : List PointXYZRGB) (e : Extent) :
    (l.foldl Extent.update e).maxx = l.foldl (fun m p => std_max p.x m) e.maxx ∧
    (l.foldl Extent.update e).minx = l.foldl (fun m p => std_min p.x m) e.minx ∧
    (l.foldl Extent.update e).maxy = l.foldl (fun m p => std_max p.y m) e.maxy ∧
    (l.foldl Extent.update e).miny = l.foldl (fun m p => std_min p.y m) e.miny ∧
    (l.foldl Extent.update e).maxz = l.foldl (fun m p => std_max p.z m) e.maxz ∧
    (l.foldl Extent.update e).minz = l.foldl (fun m p => std_min p.z m) e.minz := by
  induction l generalizing e with
  | nil => simp
  | cons a l ih =>
    simp only [List.foldl_cons]
    exact ih (e.update a)

theorem fold_max_attained (S : PointXYZRGB → Prop) (f : PointXYZRGB → ℚ) (l : List PointXYZRGB)
    (hS : ∀ p, p ∈ l ↔ S p) (hne : ∃ q, S q) (m0 : ℚ) (hlow : ∀ p, S p → m0 ≤ f p) :
    IsMaxOver S f (l.foldl (fun m p => std_max (f p) m) m0) := by
  obtain ⟨h1, h2, h3⟩ := fold_std_max f l m0
  obtain ⟨q0, hq0⟩ := hne
  refine ⟨?_, fun q hq => h2 q ((hS q).mpr hq)⟩
  rcases h3 with h3 | ⟨p, hp, h3⟩
  · refine ⟨q0, hq0, ?_⟩
    have := h2 q0 ((hS q0).mpr hq0)
    have := hlow q0 hq0
    linarith
  · exact ⟨p, (hS p).mp hp, h3⟩

theorem fold_min_attained (S : PointXYZRGB → Prop) (f : PointXYZRGB → ℚ) (l : List PointXYZRGB)
    (hS : ∀ p, p ∈ l ↔ S p) (hne : ∃ q, S q) (m0 : ℚ) (hhigh : ∀ p, S p → f p ≤ m0) :
    IsMinOver S f (l.foldl (fun m p => std_min (f p) m) m0) := by
  obtain ⟨h1, h2, h3⟩ := fold_std_min f l m0
  obtain ⟨q0, hq0⟩ := hne
  refine ⟨?_, fun q hq => h2 q ((hS q).mpr hq)⟩
  rcases h3 with h3 | ⟨p, hp, h3⟩
  · refine ⟨q0, hq0, ?_⟩
    have := h2 q0 ((hS q0).mpr hq0)
    have := hhigh q0 hq0
    linarith
  · exact ⟨p, (hS p).mp hp, h3⟩

theorem survives_finite (self : Darknet3D) (cloud : PointCloud) (hrange : InFloatRange cloud)
    (anchor : PointXYZRGB) (bbx : BoundingBox) (p : PointXYZRGB)
    (h : Survives self cloud anchor bbx p) : FiniteEntry (some p) := by
  obtain ⟨x, y, _, _, hpix, _⟩ := h
  unfold pixel at hpix
  exact hrange (some p) (List.getElem?_mem hpix)

theorem detection_loop_cons_skip (self : Darknet3D) (cloud : PointCloud) (bbx : BoundingBox)
    (rest : List BoundingBox) (out : List BoundingBox3d) (h : skipped self bbx = true) :
    detection_loop self cloud (bbx :: rest) out = detection_loop self cloud rest out := by
  rw [detection_loop, if_pos h]

theorem detection_loop_cons_pass (self : Darknet3D) (cloud : PointCloud) (bbx : BoundingBox)
    (rest : List BoundingBox) (out : List BoundingBox3d) (b : BoundingBox3d)
    (h : skipped self bbx = false) (hb : estimate self cloud bbx = Except.ok b) :
    detection_loop self cloud (bbx :: rest) out = detection_loop self cloud rest (out ++ [b]) := by
  simp [detection_loop, h, hb]

theorem skipped_eq_false_iff (self : Darknet3D) (bbx : BoundingBox) :
    skipped self bbx = false ↔
      self.minimum_probability_ ≤ bbx.probability ∧ bbx.Class ∈ self.interested_classes_ := by
  unfold skipped
  rw [Bool.or_eq_false_iff]
  have hfind : (List.find? (fun c => c == bbx.Class) self.interested_classes_).isNone = false ↔
      bbx.Class ∈ self.interested_classes_ := by
    induction self.interested_classes_ with
    | nil => simp
    | cons c cs ih =>
      by_cases hc : c = bbx.Class
      · simp [List.find?_cons, hc]
      · have hc2 : ¬ bbx.Class = c := fun h => hc h.symm
        simp [List.find?_cons, hc, hc2, ih]
  rw [hfind]
  simp

theorem compute_center_point_total (cloud : PointCloud) (hwf : WellFormed cloud)
    (box2d : BoundingBox) : ∃ p, compute_center_point cloud box2d = Except.ok p := by
  obtain ⟨l, hl, _⟩ := sample_points_spec cloud hwf box2d
  cases l with
  | nil => exact ⟨PointXYZRGB.zero, by unfold compute_center_point; rw [hl]⟩
  | cons p0 rest =>
    exact ⟨min_x_loop p0 (p0 :: rest), by unfold compute_center_point; rw [hl]⟩

theorem estimate_of_scan (self : Darknet3D) (cloud : PointCloud) (bbx : BoundingBox)
    (c : PointXYZRGB) (e : Extent) (hc : compute_center_point cloud bbx = Except.ok c)
    (he : dense_scan self cloud c bbx = Except.ok e) :
    estimate self cloud bbx = Except.ok (bbx_msg bbx e) := by
  unfold estimate
  rw [hc]
  show (match dense_scan self cloud c bbx with
    | Except.error ex => Except.error ex
    | Except.ok e => Except.ok (bbx_msg bbx e)) = _
  rw [he]

theorem estimate_of_scan_error (self : Darknet3D) (cloud : PointCloud) (bbx : BoundingBox)
    (c : PointXYZRGB) (ex : Exn) (hc : compute_center_point cloud bbx = Except.ok c)
    (he : dense_scan self cloud c bbx = Except.error ex) :
    estimate self cloud bbx = Except.error ex := by
  unfold estimate
  rw [hc]
  show (match dense_scan self cloud c bbx with
    | Except.error ex => Except.error ex
    | Except.ok e => Except.ok (bbx_msg bbx e)) = _
  rw [he]

theorem estimate_total (self : Darknet3D) (cloud : PointCloud) (hwf : WellFormed cloud)
    (bbx : BoundingBox) (hrect : RectInFrame cloud bbx) :
    ∃ b, estimate self cloud bbx = Except.ok b := by
  obtain ⟨c, hc⟩ := compute_center_point_total cloud hwf bbx
  exact ⟨bbx_msg bbx ((kept_points self cloud c bbx).foldl Extent.update Extent.init),
    estimate_of_scan self cloud bbx c _ hc (dense_scan_in_frame self cloud hwf c bbx hrect)⟩

theorem estimate_carries (self : Darknet3D) (cloud : PointCloud) (bbx : BoundingBox)
    (b : BoundingBox3d) (h : estimate self cloud bbx = Except.ok b) :
    b.Class = bbx.Class ∧ b.probability = bbx.probability := by
  unfold estimate at h
  split at h
  · cases h
  · split at h
    · cases h
    · cases h
      exact ⟨rfl, rfl⟩

theorem detection_loop_spec (self : Darknet3D) (cloud : PointCloud) (boxes2d : List BoundingBox)
    (acc out : List BoundingBox3d) (h : detection_loop self cloud boxes2d acc = Except.ok out) :
    ∃ news, out = acc ++ news ∧
      List.Forall₂ Carries news (boxes2d.filter (fun b => !skipped self b)) := by
  induction boxes2d generalizing acc with
  | nil =>
    simp only [detection_loop] at h
    cases h
    exact ⟨[], by simp, by simp⟩
  | cons bbx rest ih =>
    by_cases hs : skipped self bbx = true
    · rw [detection_loop_cons_skip self cloud bbx rest acc hs] at h
      obtain ⟨news, h1, h2⟩ := ih acc h
      exact ⟨news, h1, by simpa [List.filter_cons, hs] using h2⟩
    · have hs2 : skipped self bbx = false := by simpa using hs
      cases hb : estimate self cloud bbx with
      | error ex => simp [detection_loop, hs2, hb] at h
      | ok b =>
        rw [detection_loop_cons_pass self cloud bbx rest acc b hs2 hb] at h
        obtain ⟨news, h1, h2⟩ := ih (acc ++ [b]) h
        refine ⟨b :: news, by simp [h1], ?_⟩
        simp only [List.filter_cons, hs2, Bool.not_false, if_true]
        exact List.Forall₂.cons (estimate_carries self cloud bbx b hb) h2

theorem detection_loop_total (self : Darknet3D) (cloud : PointCloud) (hwf : WellFormed cloud)
    (boxes2d : List BoundingBox)
    (hrect : ∀ b ∈ boxes2d, skipped self b = false → RectInFrame cloud b)
    (acc : List BoundingBox3d) : ∃ out, detection_loop self cloud boxes2d acc = Except.ok out := by
  induction boxes2d generalizing acc with
  | nil => exact ⟨acc, rfl⟩
  | cons bbx rest ih =>
    have hrest : ∀ b ∈ rest, skipped self b = false → RectInFrame cloud b :=
      fun b hb => hrect b (List.mem_cons_of_mem bbx hb)
    by_cases hs : skipped self bbx = true
    · rw [detection_loop_cons_skip self cloud bbx rest acc hs]
      exact ih hrest acc
    · have hs2 : skipped self bbx = false := by simpa using hs
      obtain ⟨b, hb⟩ := estimate_total self cloud hwf bbx
        (hrect bbx (List.mem_cons_self bbx rest) hs2)
      rw [detection_loop_cons_pass self cloud bbx rest acc b hs2 hb]
      exact ih hrest (acc ++ [b])

theorem sample_points_steps_zero_nil (cloud : PointCloud) (box2d : BoundingBox)
    (hw : width_step box2d = 0) (hh : height_step box2d = 0)
    (hs : sample cloud (center_x box2d) (center_y box2d) = Except.ok []) :
    sample_points cloud box2d = Except.ok [] := by
  unfold sample_points
  simp only [new_x_of_step_zero box2d _ hw, new_y_of_step_zero box2d _ hh, hs,
    collect_const_nil]

theorem compute_center_point_of_sample_nil (cloud : PointCloud) (box2d : BoundingBox)
    (hw : width_step box2d = 0) (hh : height_step box2d = 0)
    (hs : sample cloud (center_x box2d) (center_y box2d) = Except.ok []) :
    compute_center_point cloud box2d = Except.ok PointXYZRGB.zero := by
  rw [compute_center_point_steps_zero cloud box2d hw hh, hs]

theorem compute_center_point_of_sample_one (cloud : PointCloud) (box2d : BoundingBox)
    (p : PointXYZRGB) (hw : width_step box2d = 0) (hh : height_step box2d = 0)
    (hs : sample cloud (center_x box2d) (center_y box2d) = Except.ok [p]) :
    compute_center_point cloud box2d = Except.ok p := by
  rw [compute_center_point_steps_zero cloud box2d hw hh, hs]

theorem detection_loop_nil (self : Darknet3D) (cloud : PointCloud) (out : List BoundingBox3d) :
    detection_loop self cloud [] out = Except.ok out := rfl

theorem detection_loop_cons_error (self : Darknet3D) (cloud : PointCloud) (bbx : BoundingBox)
    (rest : List BoundingBox) (out : List BoundingBox3d) (ex : Exn)
    (h : skipped self bbx = false) (hb : estimate self cloud bbx = Except.error ex) :
    detection_loop self cloud (bbx :: rest) out = Except.error ex := by
  simp [detection_loop, h, hb]

theorem calculate_boxes_of_loop (self : Darknet3D) (cloud : PointCloud)
    (boxes2d : List BoundingBox) (boxes : BoundingBoxes3d) (out : List BoundingBox3d)
    (h : detection_loop self cloud boxes2d boxes.bounding_boxes = Except.ok out) :
    calculate_boxes self cloud boxes2d boxes
      = Except.ok ⟨cloud.stamp, self.working_frame_, out⟩ := by
  simp [calculate_boxes, h]

theorem calculate_boxes_of_loop_error (self : Darknet3D) (cloud : PointCloud)
    (boxes2d : List BoundingBox) (boxes : BoundingBoxes3d) (ex : Exn)
    (h : detection_loop self cloud boxes2d boxes.bounding_boxes = Except.error ex) :
    calculate_boxes self cloud boxes2d boxes = Except.error ex := by
  simp [calculate_boxes, h]

theorem lookup_fold_spec (t : Nat) (l : List PointCloud) (best : Option PointCloud)
    (hbest : ∀ b, best = some b → b.stamp ≤ t) :
    (l.foldl (FrameCache.better t) best = none ↔ best = none ∧ ∀ f ∈ l, t < f.stamp) ∧
    ∀ r, l.foldl (FrameCache.better t) best = some r →
      (r ∈ l ∨ best = some r) ∧ r.stamp ≤ t ∧ (∀ f ∈ l, f.stamp ≤ t → f.stamp ≤ r.stamp) ∧
        ∀ b, best = some b → b.stamp ≤ r.stamp := by
  induction l generalizing best with
  | nil =>
    refine ⟨by simp, ?_⟩
    intro r hr
    simp only [List.foldl_nil] at hr
    refine ⟨Or.inr hr, hbest r hr, by simp, ?_⟩
    intro b hb
    rw [hr] at hb
    cases hb
    exact le_refl _
  | cons a l ih =>
    simp only [List.foldl_cons]
    by_cases ha : a.stamp ≤ t
    · cases best with
      | none =>
        have hstep : FrameCache.better t none a = some a := by simp [FrameCache.better, ha]
        rw [hstep]
        obtain ⟨h1, h2⟩ := ih (some a) (fun b hb => by cases hb; exact ha)
        refine ⟨?_, ?_⟩
        · constructor
          · intro h
            exact absurd (h1.mp h).1 (by simp)
          · rintro ⟨_, h⟩
            exact absurd (h a (List.mem_cons_self a l)) (by omega)
        · intro r hr
          obtain ⟨h3, h4, h5, h6⟩ := h2 r hr
          refine ⟨?_, h4, ?_, by simp⟩
          · rcases h3 with h3 | h3
            · exact Or.inl (List.mem_cons_of_mem a h3)
            · cases h3
              exact Or.inl (List.mem_cons_self a l)
          · intro f hf hft
            rcases List.mem_cons.mp hf with rfl | hf
            · exact h6 f rfl
            · exact h5 f hf hft
      | some b =>
        have hb := hbest b rfl
        by_cases hba : b.stamp ≤ a.stamp
        · have hstep : FrameCache.better t (some b) a = some a := by
            simp [FrameCache.better, ha, hba]
          rw [hstep]
          obtain ⟨h1, h2⟩ := ih (some a) (fun b1 hb1 => by cases hb1; exact ha)
          refine ⟨?_, ?_⟩
          · constructor
            · intro h
              exact absurd (h1.mp h).1 (by simp)
            · rintro ⟨h, _⟩
              exact absurd h (by simp)
          · intro r hr
            obtain ⟨h3, h4, h5, h6⟩ := h2 r hr
            refine ⟨?_, h4, ?_, ?_⟩
            · rcases h3 with h3 | h3
              · exact Or.inl (List.mem_cons_of_mem a h3)
              · cases h3
                exact Or.inl (List.mem_cons_self a l)
            · intro f hf hft
              rcases List.mem_cons.mp hf with rfl | hf
              · exact h6 f rfl
              · exact h5 f hf hft
            · intro b1 hb1
              cases hb1
              exact le_trans hba (h6 a rfl)
        · have hstep : FrameCache.better t (some b) a = some b := by
            simp [FrameCache.better, ha, hba]
          rw [hstep]
          obtain ⟨h1, h2⟩ := ih (some b) (fun b1 hb1 => by cases hb1; exact hb)
          refine ⟨?_, ?_⟩
          · constructor
            · intro h
              exact absurd (h1.mp h).1 (by simp)
            · rintro ⟨h, _⟩
              exact absurd h (by simp)
          · intro r hr
            obtain ⟨h3, h4, h5, h6⟩ := h2 r hr
            refine ⟨?_, h4, ?_, h6⟩
            · rcases h3 with h3 | h3
              · exact Or.inl (List.mem_cons_of_mem a h3)
              · exact Or.inr h3
            · intro f hf hft
              rcases List.mem_cons.mp hf with rfl | hf
              · have := h6 b rfl
                omega
              · exact h5 f hf hft
    · have hstep : FrameCache.better t best a = best := by simp [FrameCache.better, ha]
      rw [hstep]
      obtain ⟨h1, h2⟩ := ih best hbest
      refine ⟨?_, ?_⟩
      · rw [h1]
        constructor
        · rintro ⟨h3, h4⟩
          refine ⟨h3, ?_⟩
          intro f hf
          rcases List.mem_cons.mp hf with rfl | hf
          · omega
          · exact h4 f hf
        · rintro ⟨h3, h4⟩
          exact ⟨h3, fun f hf => h4 f (List.mem_cons_of_mem a hf)⟩
      · intro r hr
        obtain ⟨h3, h4, h5, h6⟩ := h2 r hr
        refine ⟨?_, h4, ?_, h6⟩
        · rcases h3 with h3 | h3
          · exact Or.inl (List.mem_cons_of_mem a h3)
          · exact Or.inr h3
        · intro f hf hft
          rcases List.mem_cons.mp hf with rfl | hf
          · exact absurd hft ha
          · exact h5 f hf hft

theorem estimate_box_left : estimate cfg0 cloud_nan_left box_left = Except.ok sentinel_box :=
  estimate_of_scan cfg0 cloud_nan_left box_left PointXYZRGB.zero Extent.init
    (compute_center_point_of_sample_nil cloud_nan_left box_left (by decide!) (by decide!)
      (by decide!))
    (by decide!)

theorem estimate_box_right :
    estimate cfg0 cloud_nan_left box_right = Except.ok ⟨"person", 9 / 10, 1, 1, 0, 0, 0, 0⟩ :=
  estimate_of_scan cfg0 cloud_nan_left box_right ⟨1, 0, 0⟩ ⟨1, 1, 0, 0, 0, 0⟩
    (compute_center_point_of_sample_one cloud_nan_left box_right ⟨1, 0, 0⟩ (by decide!)
      (by decide!) (by decide!))
    (by decide!)

theorem anchor_nan_centre :
    compute_center_point cloud_nan_centre box_row = Except.ok PointXYZRGB.zero :=
  compute_center_point_of_sample_nil cloud_nan_centre box_row (by decide!) (by decide!)
    (by decide!)

theorem anchor_far : compute_center_point cloud_far box_row = Except.ok PointXYZRGB.zero :=
  compute_center_point_of_sample_nil cloud_far box_row (by decide!) (by decide!) (by decide!)

theorem estimate_box_full :
    estimate cfg0 cloud_full box_full = Except.ok ⟨"person", 9 / 10, 1, 1, 0, 6, 0, 0⟩ :=
  estimate_of_scan cfg0 cloud_full box_full ⟨1, 6, 0⟩ ⟨1, 1, 6, 0, 0, 0⟩
    (compute_center_point_of_sample_one cloud_full box_full ⟨1, 6, 0⟩ (by decide!)
      (by decide!) (by decide!))
    (by decide!)

theorem cloud_round_values :
    float32 (6 / 10) = 5033165 / 8388608 ∧ float32 (1 / 10) = 13421773 / 134217728 ∧
      float32 (7 / 10) = 11744051 / 16777216 := by
  decide!

theorem anchor_round :
    compute_center_point cloud_round box_round = Except.ok ⟨13421773 / 134217728, 0, 0⟩ :=
  compute_center_point_of_sample_one cloud_round box_round ⟨13421773 / 134217728, 0, 0⟩
    (by decide!) (by decide!) (by decide!)

theorem estimate_round :
    estimate cfg0 cloud_round box_round
      = Except.ok ⟨"person", 9 / 10, 13421773 / 134217728, 5033165 / 8388608, 0, 0, 0, 0⟩ :=
  estimate_of_scan cfg0 cloud_round box_round ⟨13421773 / 134217728, 0, 0⟩
    ⟨5033165 / 8388608, 13421773 / 134217728, 0, 0, 0, 0⟩ anchor_round (by decide!)

theorem inbox_round (p : PointXYZRGB) (h : InBox cloud_round box_round p) :
    p = ⟨5033165 / 8388608, 0, 0⟩ ∨ p = ⟨13421773 / 134217728, 0, 0⟩ ∨
      p = ⟨11744051 / 16777216, 0, 0⟩ := by
  obtain ⟨x, y, hx, hy, hpix⟩ := h
  have hx1 : (0 : Int) ≤ x ∧ x < 3 := hx
  have hy1 : (0 : Int) ≤ y ∧ y < 1 := hy
  have hy0 : y = 0 := by omega
  have hx0 : x = 0 ∨ x = 1 ∨ x = 2 := by omega
  subst hy0
  rcases hx0 with rfl | rfl | rfl
  · have h0 : pixel cloud_round 0 0 = some (some ⟨5033165 / 8388608, 0, 0⟩) := by decide!
    exact Or.inl (Option.some.inj (Option.some.inj (hpix.symm.trans h0)))
  · have h0 : pixel cloud_round 1 0 = some (some ⟨13421773 / 134217728, 0, 0⟩) := by decide!
    exact Or.inr (Or.inl (Option.some.inj (Option.some.inj (hpix.symm.trans h0))))
  · have h0 : pixel cloud_round 2 0 = some (some ⟨11744051 / 16777216, 0, 0⟩) := by decide!
    exact Or.inr (Or.inr (Option.some.inj (Option.some.inj (hpix.symm.trans h0))))

theorem static_cast_int_nonneg (q : ℚ) (hq : 0 ≤ q) : static_cast_int q = ⌊q⌋ := by
  unfold static_cast_int
  rw [if_pos hq]

theorem tdiv_floor_div (q : ℚ) (hq : 0 ≤ q) :
    Int.tdiv (static_cast_int q) num_samples = ⌊q / 500⌋ := by
  rw [static_cast_int_nonneg q hq]
  have h0 : (0 : Int) ≤ ⌊q⌋ := Int.floor_nonneg.mpr hq
  have hn : num_samples = 500 := rfl
  rw [hn, Int.tdiv_eq_ediv h0 (by norm_num)]
  symm
  rw [Int.floor_eq_iff]
  have h1 : ((⌊q⌋ / 500 : Int) : ℚ) * 500 ≤ q := by
    have : (⌊q⌋ / 500) * 500 ≤ ⌊q⌋ := Int.ediv_mul_le _ (by norm_num)
    have h2 : (((⌊q⌋ / 500) * 500 : Int) : ℚ) ≤ (⌊q⌋ : ℚ) := by exact_mod_cast this
    have h3 : (⌊q⌋ : ℚ) ≤ q := Int.floor_le q
    push_cast at h2
    linarith
  have h4 : q < (((⌊q⌋ / 500 : Int) : ℚ) + 1) * 500 := by
    have : ⌊q⌋ < (⌊q⌋ / 500 + 1) * 500 := by omega
    have h5 : ⌊q⌋ + 1 ≤ (⌊q⌋ / 500 + 1) * 500 := by omega
    have h6 : ((⌊q⌋ + 1 : Int) : ℚ) ≤ (((⌊q⌋ / 500 + 1) * 500 : Int) : ℚ) := by exact_mod_cast h5
    have h7 : q < (⌊q⌋ : ℚ) + 1 := Int.lt_floor_add_one q
    push_cast at h6
    linarith
  constructor
  · rw [le_div_iff₀ (by norm_num)]
    exact h1
  · rw [div_lt_iff₀ (by norm_num)]
    exact h4

theorem box_width_of_fit (box2d : BoundingBox) (h0 : 0 ≤ box2d.xmax - box2d.xmin)
    (h1 : box2d.xmax - box2d.xmin < 2 ^ 31) : box_width box2d = box2d.xmax - box2d.xmin := by
  unfold box_width
  rw [to_int64_of_range _ h0 (by omega), to_int_of_range _ h0 h1]

theorem box_height_of_fit (box2d : BoundingBox) (h0 : 0 ≤ box2d.ymax - box2d.ymin)
    (h1 : box2d.ymax - box2d.ymin < 2 ^ 31) : box_height box2d = box2d.ymax - box2d.ymin := by
  unfold box_height
  rw [to_int64_of_range _ h0 (by omega), to_int_of_range _ h0 h1]

theorem center_of_fit (lo hi : Int) (h0 : 0 ≤ lo) (hle : lo ≤ hi) (h1 : hi < 2 ^ 31) :
    to_int (Int.tdiv (to_int64 (hi + lo)) 2) = Int.tdiv (hi + lo) 2 := by
  rw [to_int64_of_range _ (by omega) (by omega)]
  have h2 : Int.tdiv (hi + lo) 2 = (hi + lo) / 2 := Int.tdiv_eq_ediv (by omega) (by norm_num)
  rw [h2]
  exact to_int_of_range _ (by omega) (by omega)

/-- Bounds on a stride computed in `float`: it is non-negative and `500 * 100 * step` is at
most `56 * extent`, for a factor `c` of at most `0.551`. -/
theorem float_step_bound (w : Int) (c : ℚ) (hw : 0 ≤ w) (hc0 : 0 ≤ c) (hc : c ≤ 551 / 1000) :
    0 ≤ Int.tdiv (static_cast_int (float32 (float32 (w : ℚ) * c))) num_samples ∧
      50000 * Int.tdiv (static_cast_int (float32 (float32 (w : ℚ) * c))) num_samples
        ≤ 56 * w := by
  have hw0 : (0 : ℚ) ≤ (w : ℚ) := by exact_mod_cast hw
  have hf0 : 0 ≤ float32 (w : ℚ) := float32_nonneg _ hw0
  have hp0 : 0 ≤ float32 (w : ℚ) * c := mul_nonneg hf0 hc0
  have hq : 0 ≤ float32 (float32 (w : ℚ) * c) := float32_nonneg _ hp0
  have hle : float32 (float32 (w : ℚ) * c) ≤ (w : ℚ) * (56 / 100) := by
    rcases eq_or_lt_of_le hw with h | h
    · rw [← h]
      simp [float32, round_float_zero]
    · have h1 : (1 : ℚ) ≤ (w : ℚ) := by exact_mod_cast (by omega : (1 : Int) ≤ w)
      have hA : float32 (w : ℚ) ≤ (w : ℚ) * (1001 / 1000) := by
        have := float32_le (w : ℚ) hw0
        linarith
      have hP : float32 (w : ℚ) * c ≤ (w : ℚ) * (1001 / 1000) * (551 / 1000) :=
        mul_le_mul hA hc hc0 (by positivity)
      have := float32_le _ hp0
      linarith
  rw [static_cast_int_nonneg _ hq]
  have h0 : (0 : Int) ≤ ⌊float32 (float32 (w : ℚ) * c)⌋ := Int.floor_nonneg.mpr hq
  have hn : num_samples = 500 := rfl
  rw [hn, Int.tdiv_eq_ediv h0 (by norm_num)]
  have h3 : (⌊float32 (float32 (w : ℚ) * c)⌋ : ℚ) ≤ float32 (float32 (w : ℚ) * c) :=
    Int.floor_le _
  have h4 : ((100 * ⌊float32 (float32 (w : ℚ) * c)⌋ : Int) : ℚ) ≤ ((56 * w : Int) : ℚ) := by
    push_cast
    linarith
  have h5 : 100 * ⌊float32 (float32 (w : ℚ) * c)⌋ ≤ 56 * w := by exact_mod_cast h4
  constructor
  · omega
  · omega

theorem width_percentage_bound : 0 ≤ width_percentage ∧ width_percentage ≤ 551 / 1000 := by
  decide!

theorem height_percentage_bound : 0 ≤ height_percentage ∧ height_percentage ≤ 551 / 1000 := by
  decide!

theorem width_step_bound (box2d : BoundingBox) (hw : 0 ≤ box2d.xmax - box2d.xmin)
    (hfit : box2d.xmax - box2d.xmin < 2 ^ 31) :
    0 ≤ width_step box2d ∧ 50000 * width_step box2d ≤ 56 * (box2d.xmax - box2d.xmin) := by
  unfold width_step
  rw [box_width_of_fit box2d hw hfit]
  exact float_step_bound _ _ hw width_percentage_bound.1 width_percentage_bound.2

theorem height_step_bound (box2d : BoundingBox) (hh : 0 ≤ box2d.ymax - box2d.ymin)
    (hfit : box2d.ymax - box2d.ymin < 2 ^ 31) :
    0 ≤ height_step box2d ∧ 50000 * height_step box2d ≤ 56 * (box2d.ymax - box2d.ymin) := by
  unfold height_step
  rw [box_height_of_fit box2d hh hfit]
  exact float_step_bound _ _ hh height_percentage_bound.1 height_percentage_bound.2

/-- One coordinate of a sampled pixel stays in `[lo, hi]`, and in `[lo, hi)` when `lo < hi`:
the centre is `(hi + lo) / 2` and `s` a stride with `50000 * s ≤ 56 * (hi - lo)`. -/
theorem sampled_coordinate_in_range (lo hi s k : Int) (hlo : 0 ≤ lo) (hle : lo ≤ hi)
    (hs0 : 0 ≤ s) (hs : 50000 * s ≤ 56 * (hi - lo)) (hk : -250 ≤ k ∧ k ≤ 250) :
    (lo ≤ Int.tdiv (hi + lo) 2 + k * s ∧ Int.tdiv (hi + lo) 2 + k * s ≤ hi) ∧
      (lo < hi → Int.tdiv (hi + lo) 2 + k * s < hi) := by
  rw [Int.tdiv_eq_ediv (by omega) (by norm_num)]
  have h1 : k * s ≤ 250 * s := Int.mul_le_mul_of_nonneg_right hk.2 hs0
  have h2 : -250 * s ≤ k * s := Int.mul_le_mul_of_nonneg_right hk.1 hs0
  refine ⟨⟨?_, ?_⟩, ?_⟩
  · omega
  · omega
  · intro hlt
    omega

/-- A sampled column of a rectangle whose coordinates fit an `int`: no narrowing changes a
value. -/
theorem new_x_exact (box2d : BoundingBox) (i : Int)
    (hx : 0 ≤ box2d.xmin ∧ box2d.xmin ≤ box2d.xmax) (hfit : box2d.xmax < 2 ^ 31)
    (hi : -250 ≤ i ∧ i ≤ 250) :
    new_x box2d i = Int.tdiv (box2d.xmax + box2d.xmin) 2 + i * width_step box2d := by
  obtain ⟨hs0, hs⟩ := width_step_bound box2d (by omega) (by omega)
  obtain ⟨hc, _⟩ := sampled_coordinate_in_range box2d.xmin box2d.xmax (width_step box2d) i
    hx.1 hx.2 hs0 hs hi
  unfold new_x center_x
  rw [center_of_fit _ _ hx.1 hx.2 hfit]
  exact to_int_of_range _ (by omega) (by omega)

theorem new_y_exact (box2d : BoundingBox) (j : Int)
    (hy : 0 ≤ box2d.ymin ∧ box2d.ymin ≤ box2d.ymax) (hfit : box2d.ymax < 2 ^ 31)
    (hj : -250 ≤ j ∧ j ≤ 250) :
    new_y box2d j = Int.tdiv (box2d.ymax + box2d.ymin) 2 + j * height_step box2d := by
  obtain ⟨hs0, hs⟩ := height_step_bound box2d (by omega) (by omega)
  obtain ⟨hc, _⟩ := sampled_coordinate_in_range box2d.ymin box2d.ymax (height_step box2d) j
    hy.1 hy.2 hs0 hs hj
  unfold new_y center_y
  rw [center_of_fit _ _ hy.1 hy.2 hfit]
  exact to_int_of_range _ (by omega) (by omega)

/-- The sampled column stays in `[xmin, xmax]`, in `[xmin, xmax)` when `xmin < xmax`. -/
theorem new_x_in_range (box2d : BoundingBox) (i : Int)
    (hx : 0 ≤ box2d.xmin ∧ box2d.xmin ≤ box2d.xmax) (hfit : box2d.xmax < 2 ^ 31)
    (hi : -250 ≤ i ∧ i ≤ 250) :
    (box2d.xmin ≤ new_x box2d i ∧ new_x box2d i ≤ box2d.xmax) ∧
      (box2d.xmin < box2d.xmax → new_x box2d i < box2d.xmax) := by
  obtain ⟨hs0, hs⟩ := width_step_bound box2d (by omega) (by omega)
  rw [new_x_exact box2d i hx hfit hi]
  exact sampled_coordinate_in_range box2d.xmin box2d.xmax (width_step box2d) i
    hx.1 hx.2 hs0 hs hi

/-- The sampled row, likewise. -/
theorem new_y_in_range (box2d : BoundingBox) (j : Int)
    (hy : 0 ≤ box2d.ymin ∧ box2d.ymin ≤ box2d.ymax) (hfit : box2d.ymax < 2 ^ 31)
    (hj : -250 ≤ j ∧ j ≤ 250) :
    (box2d.ymin ≤ new_y box2d j ∧ new_y box2d j ≤ box2d.ymax) ∧
      (box2d.ymin < box2d.ymax → new_y box2d j < box2d.ymax) := by
  obtain ⟨hs0, hs⟩ := height_step_bound box2d (by omega) (by omega)
  rw [new_y_exact box2d j hy hfit hj]
  exact sampled_coordinate_in_range box2d.ymin box2d.ymax (height_step box2d) j
    hy.1 hy.2 hs0 hs hj

theorem alpha_value : float32 (float64 (4 / 10)) = 13421773 / 33554432 := by decide!

theorem publish_markers_loop_append (boxes : BoundingBoxes3d) (bbs : List BoundingBox3d)
    (bb : BoundingBox3d) :
    publish_markers_loop boxes (bbs ++ [bb]) =
      ((publish_markers_loop boxes bbs).1 + 1,
        (publish_markers_loop boxes bbs).2 ++
          [bbx_marker boxes (publish_markers_loop boxes bbs).1 bb]) := by
  simp [publish_markers_loop, List.foldl_append]

theorem publish_markers_loop_spec (boxes : BoundingBoxes3d) (bbs : List BoundingBox3d) :
    (publish_markers_loop boxes bbs).1 = (bbs.length : Int) ∧
      (publish_markers_loop boxes bbs).2.length = bbs.length ∧
      ∀ (i : Nat) (bb : BoundingBox3d), bbs[i]? = some bb →
        (publish_markers_loop boxes bbs).2[i]? = some (bbx_marker boxes (i : Int) bb) := by
  induction bbs using List.reverseRecOn with
  | nil => exact ⟨rfl, rfl, by simp⟩
  | append_singleton bbs b ih =>
    obtain ⟨h1, h2, h3⟩ := ih
    rw [publish_markers_loop_append]
    refine ⟨by simp [h1], by simp [h2], ?_⟩
    intro i bb hi
    by_cases hlt : i < bbs.length
    · rw [List.getElem?_append_left hlt] at hi
      rw [List.getElem?_append_left (by omega)]
      exact h3 i bb hi
    · have hlen : i < (bbs ++ [b]).length := by
        rcases List.getElem?_eq_some_iff.mp hi with ⟨h, _⟩
        exact h
      have hi2 : i = bbs.length := by
        simp at hlen
        omega
      subst hi2
      simp at hi
      subst hi
      rw [List.getElem?_append_right (by omega)]
      simp [h1, h2]

theorem compute_center_point_timed_fst (world : World) (cloud : PointCloud)
    (box2d : BoundingBox) :
    (compute_center_point_timed world cloud box2d).map Prod.fst
      = compute_center_point cloud box2d := by
  unfold compute_center_point_timed compute_center_point
  cases sample_points cloud box2d with
  | error e => rfl
  | ok l =>
    cases l with
    | nil => rfl
    | cons p0 rest => rfl

theorem estimate_timed_fst (self : Darknet3D) (world : World) (cloud : PointCloud)
    (bbx : BoundingBox) :
    (estimate_timed self world cloud bbx).map Prod.fst = estimate self cloud bbx := by
  have h := compute_center_point_timed_fst world cloud bbx
  cases hc : compute_center_point_timed world cloud bbx with
  | error e =>
    have h2 : compute_center_point cloud bbx = Except.error e := by
      rw [← h, hc]
      rfl
    unfold estimate_timed estimate
    rw [hc, h2]
    rfl
  | ok r =>
    obtain ⟨c, w1⟩ := r
    have h2 : compute_center_point cloud bbx = Except.ok c := by
      rw [← h, hc]
      rfl
    unfold estimate_timed estimate
    rw [hc, h2]
    show Except.map Prod.fst (match dense_scan self cloud c bbx with
      | Except.error ex => Except.error ex
      | Except.ok e => Except.ok (bbx_msg bbx e, w1)) = (match dense_scan self cloud c bbx with
      | Except.error ex => Except.error ex
      | Except.ok e => Except.ok (bbx_msg bbx e))
    cases dense_scan self cloud c bbx with
    | error e => rfl
    | ok e => rfl

theorem detection_loop_timed_fst (self : Darknet3D) (cloud : PointCloud)
    (boxes2d : List BoundingBox) (out : List BoundingBox3d) (world : World) :
    (detection_loop_timed self cloud boxes2d out world).map Prod.fst
      = detection_loop self cloud boxes2d out := by
  induction boxes2d generalizing out world with
  | nil => rfl
  | cons bbx rest ih =>
    by_cases hs : skipped self bbx = true
    · rw [detection_loop_timed, detection_loop, if_pos hs, if_pos hs]
      exact ih out world
    · have hs2 : skipped self bbx = false := by simpa using hs
      have h := estimate_timed_fst self world cloud bbx
      cases he : estimate_timed self world cloud bbx with
      | error e =>
        have h2 : estimate self cloud bbx = Except.error e := by
          rw [← h, he]
          rfl
        simp only [detection_loop_timed, detection_loop, hs2, Bool.false_eq_true, if_false, he,
          h2]
        rfl
      | ok r =>
        obtain ⟨b, w1⟩ := r
        have h2 : estimate self cloud bbx = Except.ok b := by
          rw [← h, he]
          rfl
        simp only [detection_loop_timed, detection_loop, hs2, Bool.false_eq_true, if_false, he,
          h2]
        exact ih (out ++ [b]) w1

theorem calculate_boxes_timed_fst (self : Darknet3D) (world : World) (cloud : PointCloud)
    (boxes2d : List BoundingBox) (boxes : BoundingBoxes3d) :
    (calculate_boxes_timed self world cloud boxes2d boxes).map Prod.fst
      = calculate_boxes self cloud boxes2d boxes := by
  have h := detection_loop_timed_fst self cloud boxes2d boxes.bounding_boxes world
  cases hl : detection_loop_timed self cloud boxes2d boxes.bounding_boxes world with
  | error e =>
    have h2 : detection_loop self cloud boxes2d boxes.bounding_boxes = Except.error e := by
      rw [← h, hl]
      rfl
    simp only [calculate_boxes_timed, calculate_boxes, hl, h2]
    rfl
  | ok r =>
    obtain ⟨l, w1⟩ := r
    have h2 : detection_loop self cloud boxes2d boxes.bounding_boxes = Except.ok l := by
      rw [← h, hl]
      rfl
    simp only [calculate_boxes_timed, calculate_boxes, hl, h2]
    rfl

theorem sample_in_scan_range (box2d : BoundingBox) (i j : Int)
    (hx : 0 ≤ box2d.xmin ∧ box2d.xmin < box2d.xmax)
    (hy : 0 ≤ box2d.ymin ∧ box2d.ymin < box2d.ymax)
    (hfit : box2d.xmax < 2 ^ 31 ∧ box2d.ymax < 2 ^ 31)
    (hi : -250 ≤ i ∧ i ≤ 250) (hj : -250 ≤ j ∧ j ≤ 250) :
    (box2d.xmin ≤ new_x box2d i ∧
        new_x box2d i < box2d.xmax) ∧
      (box2d.ymin ≤ new_y box2d j ∧
        new_y box2d j < box2d.ymax) := by
  obtain ⟨hxc, hxo⟩ := new_x_in_range box2d i ⟨hx.1, hx.2.le⟩ hfit.1 hi
  obtain ⟨hyc, hyo⟩ := new_y_in_range box2d j ⟨hy.1, hy.2.le⟩ hfit.2 hj
  exact ⟨⟨hxc.1, hxo hx.2⟩, ⟨hyc.1, hyo hy.2⟩⟩

theorem sparse_sample_in_box (cloud : PointCloud) (bbx : BoundingBox) (p : PointXYZRGB)
    (hx : 0 ≤ bbx.xmin ∧ bbx.xmin < bbx.xmax) (hy : 0 ≤ bbx.ymin ∧ bbx.ymin < bbx.ymax)
    (hfit : bbx.xmax < 2 ^ 31 ∧ bbx.ymax < 2 ^ 31)
    (h : SparseSample cloud bbx p) : InBox cloud bbx p := by
  obtain ⟨i, j, hi, hj, _, hpix⟩ := h
  obtain ⟨h1, h2⟩ := sample_in_scan_range bbx i j hx hy hfit hi hj
  exact ⟨_, _, h1, h2, hpix⟩

theorem not_exceeds_self (a threshold : ℚ) (hthr : 0 ≤ threshold) :
    ¬ exceeds a a threshold := by
  have h0 : fabs_diff a a = 0 := by
    unfold fabs_diff
    rw [sub_self]
    simp [float32, round_float_zero]
  have hF : (0 : ℚ) ≤ FLT_MAX := by decide!
  unfold exceeds
  rw [h0]
  intro h
  rcases h with h | h
  · exact absurd h (not_lt.mpr hF)
  · exact absurd h (not_lt.mpr hthr)

theorem anchor_survives (self : Darknet3D) (cloud : PointCloud) (bbx : BoundingBox)
    (a : PointXYZRGB) (hthr : 0 ≤ self.mininum_detection_thereshold_)
    (hx : 0 ≤ bbx.xmin ∧ bbx.xmin < bbx.xmax) (hy : 0 ≤ bbx.ymin ∧ bbx.ymin < bbx.ymax)
    (hfit : bbx.xmax < 2 ^ 31 ∧ bbx.ymax < 2 ^ 31)
    (h : SparseSample cloud bbx a) : Survives self cloud a bbx a := by
  obtain ⟨x, y, h1, h2, hpix⟩ := sparse_sample_in_box cloud bbx a hx hy hfit h
  exact ⟨x, y, h1, h2, hpix, not_exceeds_self a.x _ hthr⟩

theorem compute_center_point_anchor (cloud : PointCloud) (box2d : BoundingBox)
    (hwf : WellFormed cloud) (hsome : ∃ q, SparseSample cloud box2d q) :
    ∃ a, compute_center_point cloud box2d = Except.ok a ∧ SparseSample cloud box2d a := by
  obtain ⟨l, hl, hmem⟩ := sample_points_spec cloud hwf box2d
  obtain ⟨q0, hq0⟩ := hsome
  cases l with
  | nil => exact absurd ((hmem q0).mpr hq0) (List.not_mem_nil q0)
  | cons p0 rest =>
    obtain ⟨h1, _, _⟩ := min_x_loop_spec (p0 :: rest) p0
    refine ⟨min_x_loop p0 (p0 :: rest), by unfold compute_center_point; rw [hl], ?_⟩
    rcases h1 with h1 | h1
    · rw [h1]
      exact (hmem p0).mp (List.mem_cons_self p0 rest)
    · exact (hmem _).mp h1

theorem dense_scan_extremes (self : Darknet3D) (cloud : PointCloud) (anchor : PointXYZRGB)
    (bbx : BoundingBox) (hwf : WellFormed cloud) (hrange : InFloatRange cloud)
    (hrect : RectInFrame cloud bbx) (hsurv : ∃ q, Survives self cloud anchor bbx q) :
    ∃ e, dense_scan self cloud anchor bbx = Except.ok e ∧
      (IsMinOver (Survives self cloud anchor bbx) (fun p => p.x) e.minx ∧
        IsMaxOver (Survives self cloud anchor bbx) (fun p => p.x) e.maxx) ∧
      (IsMinOver (Survives self cloud anchor bbx) (fun p => p.y) e.miny ∧
        IsMaxOver (Survives self cloud anchor bbx) (fun p => p.y) e.maxy) ∧
      (IsMinOver (Survives self cloud anchor bbx) (fun p => p.z) e.minz ∧
        IsMaxOver (Survives self cloud anchor bbx) (fun p => p.z) e.maxz) := by
  have hscan := dense_scan_in_frame self cloud hwf anchor bbx hrect
  have hS := mem_kept_points self cloud anchor bbx
  have hfin := survives_finite self cloud hrange anchor bbx
  obtain ⟨px, nx, py, ny, pz, nz⟩ :=
    extent_fold_proj (kept_points self cloud anchor bbx) Extent.init
  refine ⟨_, hscan, ⟨?_, ?_⟩, ⟨?_, ?_⟩, ⟨?_, ?_⟩⟩
  · rw [nx]
    exact fold_min_attained _ (fun p => p.x) _ hS hsurv _ (fun p hp => (hfin p hp).1.2)
  · rw [px]
    exact fold_max_attained _ (fun p => p.x) _ hS hsurv _ (fun p hp => (hfin p hp).1.1)
  · rw [ny]
    exact fold_min_attained _ (fun p => p.y) _ hS hsurv _ (fun p hp => (hfin p hp).2.1.2)
  · rw [py]
    exact fold_max_attained _ (fun p => p.y) _ hS hsurv _ (fun p hp => (hfin p hp).2.1.1)
  · rw [nz]
    exact fold_min_attained _ (fun p => p.z) _ hS hsurv _ (fun p hp => (hfin p hp).2.2.2)
  · rw [pz]
    exact fold_max_attained _ (fun p => p.z) _ hS hsurv _ (fun p hp => (hfin p hp).2.2.1)

theorem detection_loop_estimates (self : Darknet3D) (cloud : PointCloud)
    (boxes2d : List BoundingBox)
    (hreads : ∀ b ∈ boxes2d, skipped self b = false → ∃ b3, estimate self cloud b = Except.ok b3)
    (acc : List BoundingBox3d) :
    ∃ news, detection_loop self cloud boxes2d acc = Except.ok (acc ++ news) ∧
      List.Forall₂ (fun b3 b2 => estimate self cloud b2 = Except.ok b3 ∧ Carries b3 b2) news
        (boxes2d.filter (fun b => !skipped self b)) := by
  induction boxes2d generalizing acc with
  | nil => exact ⟨[], by simp [detection_loop], by simp⟩
  | cons bbx rest ih =>
    have hrest : ∀ b ∈ rest, skipped self b = false →
        ∃ b3, estimate self cloud b = Except.ok b3 :=
      fun b hb => hreads b (List.mem_cons_of_mem bbx hb)
    by_cases hs : skipped self bbx = true
    · rw [detection_loop_cons_skip self cloud bbx rest acc hs]
      obtain ⟨news, h1, h2⟩ := ih hrest acc
      exact ⟨news, h1, by simpa [List.filter_cons, hs] using h2⟩
    · have hs2 : skipped self bbx = false := by simpa using hs
      obtain ⟨b, hb⟩ := hreads bbx (List.mem_cons_self bbx rest) hs2
      rw [detection_loop_cons_pass self cloud bbx rest acc b hs2 hb]
      obtain ⟨news, h1, h2⟩ := ih hrest (acc ++ [b])
      refine ⟨b :: news, by simp [h1], ?_⟩
      simp only [List.filter_cons, hs2, Bool.not_false, if_true]
      exact List.Forall₂.cons ⟨hb, estimate_carries self cloud bbx b hb⟩ h2

theorem centre_sample_exists (cloud : PointCloud) (bbx : BoundingBox) (hwf : WellFormed cloud)
    (hz : ∀ e ∈ cloud.points, ValidAtZ1 e) (hrect : RectInFrame cloud bbx)
    (hnd : bbx.xmin < bbx.xmax ∧ bbx.ymin < bbx.ymax) : ∃ q, SparseSample cloud bbx q := by
  obtain ⟨hx0, hx1, hy0, hy1, _, hfx, _, hfy⟩ := hrect
  obtain ⟨⟨h1, h2⟩, ⟨h3, h4⟩⟩ := sample_in_scan_range bbx 0 0 ⟨hx0, hnd.1⟩ ⟨hy0, hnd.2⟩
    ⟨hfx, hfy⟩ (by omega) (by omega)
  have hin : InFrame cloud (new_x bbx 0)
      (new_y bbx 0) := ⟨by omega, by omega, by omega, by omega⟩
  obtain ⟨e, hpix, _⟩ := cloud_at_in_frame cloud hwf _ _ hin
  have hmem : e ∈ cloud.points := by
    unfold pixel at hpix
    exact List.getElem?_mem hpix
  have hv := hz e hmem
  cases e with
  | none => exact absurd hv (by simp [ValidAtZ1])
  | some p => exact ⟨p, 0, 0, by omega, by omega, hin, hpix⟩

theorem survivor_at_z1 (self : Darknet3D) (cloud : PointCloud) (anchor : PointXYZRGB)
    (bbx : BoundingBox) (hz : ∀ e ∈ cloud.points, ValidAtZ1 e) (p : PointXYZRGB)
    (h : Survives self cloud anchor bbx p) : p.z = 1 := by
  obtain ⟨x, y, _, _, hpix, _⟩ := h
  unfold pixel at hpix
  exact hz (some p) (List.getElem?_mem hpix)

theorem survives_iff_in_box (self : Darknet3D) (cloud : PointCloud) (anchor : PointXYZRGB)
    (bbx : BoundingBox)
    (hall : ∀ p, InBox cloud bbx p → ¬ exceeds p.x anchor.x self.mininum_detection_thereshold_)
    (p : PointXYZRGB) : Survives self cloud anchor bbx p ↔ InBox cloud bbx p := by
  constructor
  · rintro ⟨x, y, h1, h2, hpix, _⟩
    exact ⟨x, y, h1, h2, hpix⟩
  · intro h
    obtain ⟨x, y, h1, h2, hpix⟩ := h
    exact ⟨x, y, h1, h2, hpix, hall p ⟨x, y, h1, h2, hpix⟩⟩

theorem isMinOver_congr (S T : PointXYZRGB → Prop) (f : PointXYZRGB → ℚ) (v : ℚ)
    (h : ∀ p, S p ↔ T p) (hm : IsMinOver S f v) : IsMinOver T f v := by
  obtain ⟨⟨p, hp, hv⟩, hall⟩ := hm
  exact ⟨⟨p, (h p).mp hp, hv⟩, fun q hq => hall q ((h q).mpr hq)⟩

theorem isMaxOver_congr (S T : PointXYZRGB → Prop) (f : PointXYZRGB → ℚ) (v : ℚ)
    (h : ∀ p, S p ↔ T p) (hm : IsMaxOver S f v) : IsMaxOver T f v := by
  obtain ⟨⟨p, hp, hv⟩, hall⟩ := hm
  exact ⟨⟨p, (h p).mp hp, hv⟩, fun q hq => hall q ((h q).mpr hq)⟩

theorem calculate_boxes_single (self : Darknet3D) (cloud : PointCloud) (bbx : BoundingBox)
    (boxes : BoundingBoxes3d) (b : BoundingBox3d) (hpass : skipped self bbx = false)
    (hb : estimate self cloud bbx = Except.ok b) :
    calculate_boxes self cloud [bbx] boxes
      = Except.ok ⟨cloud.stamp, self.working_frame_, boxes.bounding_boxes ++ [b]⟩ :=
  calculate_boxes_of_loop self cloud [bbx] boxes _
    ((detection_loop_cons_pass self cloud bbx [] boxes.bounding_boxes b hpass hb).trans
      (detection_loop_nil self cloud _))

theorem darknetCb_uncaught (self : Darknet3D) (getElemBeforeTime : Nat → Option PointCloud)
    (n3d nmk : Nat) (transformPointCloud : String → PointCloud → Option PointCloud)
    (msg : BoundingBoxes) (closest local_pointcloud : PointCloud) (ex : Exn)
    (hfound : getElemBeforeTime msg.image_stamp = some closest)
    (hsub : ¬ (n3d = 0 ∧ nmk = 0))
    (htf : transformPointCloud self.working_frame_ closest = some local_pointcloud)
    (hcalc : calculate_boxes self local_pointcloud msg.bounding_boxes BoundingBoxes3d.empty
      = Except.error ex) :
    darknetCb self getElemBeforeTime n3d nmk transformPointCloud msg
      = ⟨false, true, none, none, some ex⟩ := by
  simp only [darknetCb, hfound, if_neg hsub, htf, hcalc]

/-- The gates of `darknetCb`: it publishes exactly when a frame was found, some output has a
subscriber, the transform succeeded and `calculate_boxes` returned; the markers are then the
ones derived from the published batch; and the transform is attempted only with a frame found
and a subscriber. -/
theorem darknetCb_gates (self : Darknet3D) (getElemBeforeTime : Nat → Option PointCloud)
    (n3d nmk : Nat) (transformPointCloud : String → PointCloud → Option PointCloud)
    (msg : BoundingBoxes) :
    (∀ out, (darknetCb self getElemBeforeTime n3d nmk transformPointCloud msg).published_boxes
        = some out ↔
      ∃ closest local_pointcloud, getElemBeforeTime msg.image_stamp = some closest ∧
        ¬ (n3d = 0 ∧ nmk = 0) ∧
        transformPointCloud self.working_frame_ closest = some local_pointcloud ∧
        calculate_boxes self local_pointcloud msg.bounding_boxes BoundingBoxes3d.empty
          = Except.ok out) ∧
    (darknetCb self getElemBeforeTime n3d nmk transformPointCloud msg).published_markers
      = (darknetCb self getElemBeforeTime n3d nmk transformPointCloud msg).published_boxes.map
          publish_markers ∧
    ((darknetCb self getElemBeforeTime n3d nmk transformPointCloud msg).transform_attempted
        = true →
      (∃ closest, getElemBeforeTime msg.image_stamp = some closest) ∧ ¬ (n3d = 0 ∧ nmk = 0)) := by
  cases hf : getElemBeforeTime msg.image_stamp with
  | none =>
    have hval : darknetCb self getElemBeforeTime n3d nmk transformPointCloud msg
        = ⟨true, false, none, none, none⟩ := by simp only [darknetCb, hf]
    rw [hval]
    simp
  | some closest =>
    by_cases hsub : n3d = 0 ∧ nmk = 0
    · have hval : darknetCb self getElemBeforeTime n3d nmk transformPointCloud msg
          = ⟨false, false, none, none, none⟩ := by simp only [darknetCb, hf, if_pos hsub]
      rw [hval]
      simp [hsub]
    · cases ht : transformPointCloud self.working_frame_ closest with
      | none =>
        have hval : darknetCb self getElemBeforeTime n3d nmk transformPointCloud msg
            = ⟨false, true, none, none, none⟩ := by simp only [darknetCb, hf, if_neg hsub, ht]
        rw [hval]
        simp [hsub, ht]
      | some l =>
        cases hc : calculate_boxes self l msg.bounding_boxes BoundingBoxes3d.empty with
        | error ex =>
          rw [darknetCb_uncaught self getElemBeforeTime n3d nmk transformPointCloud msg closest l
            ex hf hsub ht hc]
          refine ⟨?_, rfl, fun _ => ⟨⟨closest, rfl⟩, hsub⟩⟩
          intro out
          constructor
          · intro h
            cases h
          · rintro ⟨c1, l1, h1, _, h3, h4⟩
            cases h1
            rw [ht] at h3
            cases h3
            rw [hc] at h4
            cases h4
        | ok out =>
          have hval : darknetCb self getElemBeforeTime n3d nmk transformPointCloud msg
              = ⟨false, true, some out, some (publish_markers out), none⟩ := by
            simp only [darknetCb, hf, if_neg hsub, ht, hc]
          rw [hval]
          refine ⟨?_, rfl, fun _ => ⟨⟨closest, rfl⟩, hsub⟩⟩
          intro out1
          constructor
          · intro h
            cases h
            exact ⟨closest, l, rfl, hsub, ht, hc⟩
          · rintro ⟨c1, l1, h1, _, h3, h4⟩
            cases h1
            rw [ht] at h3
            cases h3
            rw [hc] at h4
            cases h4
            rfl

theorem batch_past_bottom_throws :
    calculate_boxes cfg0 cloud_full [box_past_bottom, box_full] BoundingBoxes3d.empty
      = Except.error Exn.out_of_range :=
  calculate_boxes_of_loop_error cfg0 cloud_full [box_past_bottom, box_full]
    BoundingBoxes3d.empty Exn.out_of_range
    (detection_loop_cons_error cfg0 cloud_full box_past_bottom [box_full] [] Exn.out_of_range
      (by decide!)
      (estimate_of_scan_error cfg0 cloud_full box_past_bottom ⟨1, 5, 0⟩ Exn.out_of_range
        (compute_center_point_of_sample_one cloud_full box_past_bottom ⟨1, 5, 0⟩ (by decide!)
          (by decide!) (by decide!))
        (by decide!)))

theorem estimate_ramp :
    estimate cfg0 cloud_ramp box_scenario = Except.ok ⟨"person", 9 / 10, 1, 1, 0, 1, 1, 1⟩ :=
  estimate_of_scan cfg0 cloud_ramp box_scenario ⟨1, 1, 1⟩ ⟨1, 1, 1, 0, 1, 1⟩
    (compute_center_point_of_sample_one cloud_ramp box_scenario ⟨1, 1, 1⟩ (by decide!)
      (by decide!) (by decide!))
    (by decide!)

theorem reads_nan_left (b : BoundingBox) (hb : b ∈ [box_left, box_dog, box_right])
    (hs : skipped cfg0 b = false) : ∃ b3, estimate cfg0 cloud_nan_left b = Except.ok b3 := by
  rcases List.mem_cons.mp hb with h | hb
  · exact ⟨sentinel_box, h ▸ estimate_box_left⟩
  rcases List.mem_cons.mp hb with h | hb
  · exact absurd (h ▸ hs) (by decide!)
  rcases List.mem_cons.mp hb with h | hb
  · exact ⟨⟨"person", 9 / 10, 1, 1, 0, 0, 0, 0⟩, h ▸ estimate_box_right⟩
  · exact absurd hb (List.not_mem_nil b)

/-! ## Claims -/

/-- C1 (failing input). Every pixel of `box_left` is invalid, so no pixel of its dense scan
survives; `calculate_boxes` still emits a box for it, with min `FLT_MAX` above max `-FLT_MAX`
on every axis, next to the box of the other detection of the batch. -/
theorem empty_scan_is_emitted :
    compute_center_point cloud_nan_left box_left = Except.ok PointXYZRGB.zero ∧
    kept_points cfg0 cloud_nan_left PointXYZRGB.zero box_left = [] ∧
    calculate_boxes cfg0 cloud_nan_left [box_left, box_right] BoundingBoxes3d.empty
      = Except.ok ⟨7, "/camera_link", [sentinel_box, ⟨"person", 9 / 10, 1, 1, 0, 0, 0, 0⟩]⟩ ∧
    sentinel_box.xmax < sentinel_box.xmin ∧ sentinel_box.ymax < sentinel_box.ymin ∧
    sentinel_box.zmax < sentinel_box.zmin :=
  ⟨compute_center_point_of_sample_nil cloud_nan_left box_left (by decide!) (by decide!)
      (by decide!),
    by decide!,
    calculate_boxes_of_loop cfg0 cloud_nan_left [box_left, box_right] BoundingBoxes3d.empty
      [sentinel_box, ⟨"person", 9 / 10, 1, 1, 0, 0, 0, 0⟩]
      ((detection_loop_cons_pass cfg0 cloud_nan_left box_left [box_right] [] sentinel_box
        (by decide!) estimate_box_left).trans
        ((detection_loop_cons_pass cfg0 cloud_nan_left box_right [] [sentinel_box]
          ⟨"person", 9 / 10, 1, 1, 0, 0, 0, 0⟩ (by decide!) estimate_box_right).trans
          (detection_loop_nil cfg0 cloud_nan_left _))),
    by decide!, by decide!, by decide!⟩

/-- C2 (failing input). No sparse sample of `box_row` survives in `cloud_nan_centre`, and
`compute_center_point` returns the origin, the very value it returns when the centre pixel
holds a real point at the origin; `calculate_boxes` then runs the dense scan against that
origin and emits a box. -/
theorem no_anchor_returns_origin :
    sample_points cloud_nan_centre box_row = Except.ok [] ∧
    compute_center_point cloud_nan_centre box_row = Except.ok PointXYZRGB.zero ∧
    compute_center_point cloud_origin_centre box_row = Except.ok PointXYZRGB.zero ∧
    calculate_boxes cfg0 cloud_nan_centre [box_row] BoundingBoxes3d.empty
      = Except.ok ⟨7, "/camera_link", [⟨"person", 9 / 10, 1 / 4, 1 / 4, 0, 0, 1, 1⟩]⟩ :=
  ⟨sample_points_steps_zero_nil cloud_nan_centre box_row (by decide!) (by decide!) (by decide!),
    anchor_nan_centre,
    compute_center_point_of_sample_one cloud_origin_centre box_row ⟨0, 0, 0⟩ (by decide!)
      (by decide!) (by decide!),
    calculate_boxes_of_loop cfg0 cloud_nan_centre [box_row] BoundingBoxes3d.empty
      [⟨"person", 9 / 10, 1 / 4, 1 / 4, 0, 0, 1, 1⟩]
      ((detection_loop_cons_pass cfg0 cloud_nan_centre box_row [] []
        ⟨"person", 9 / 10, 1 / 4, 1 / 4, 0, 0, 1, 1⟩ (by decide!)
        (estimate_of_scan cfg0 cloud_nan_centre box_row PointXYZRGB.zero
          ⟨1 / 4, 1 / 4, 0, 0, 1, 1⟩ anchor_nan_centre (by decide!))).trans
        (detection_loop_nil cfg0 cloud_nan_centre _))⟩

/-- C3 (counterexample). On the 3 × 1 `cloud_round` with threshold 1/2 the anchor is the point
of pixel (1,0), with `x` = 0.1f, and the emitted box has `xmax` = 0.6f, the `x` of the point of
pixel (0,0). The distance of that point to the anchor is above 1/2, so it is not one of the
points with `|point.x - anchor.x|` at most the threshold, and 0.6f is not the maximum of `x`
over those points: the code compares the `float` difference, which rounds to 1/2. -/
theorem dense_scan_rounding_counterexample :
    WellFormed cloud_round ∧ RectInFrame cloud_round box_round ∧
    compute_center_point cloud_round box_round = Except.ok ⟨13421773 / 134217728, 0, 0⟩ ∧
    estimate cfg0 cloud_round box_round
      = Except.ok ⟨"person", 9 / 10, 13421773 / 134217728, 5033165 / 8388608, 0, 0, 0, 0⟩ ∧
    InBox cloud_round box_round ⟨5033165 / 8388608, 0, 0⟩ ∧
    ¬ |(5033165 / 8388608 : ℚ) - 13421773 / 134217728| ≤ cfg0.mininum_detection_thereshold_ ∧
    ¬ IsMaxOver (fun p => InBox cloud_round box_round p ∧
        |p.x - 13421773 / 134217728| ≤ cfg0.mininum_detection_thereshold_)
      (fun p => p.x) (5033165 / 8388608) :=
  ⟨by decide!, by decide!, anchor_round, estimate_round,
    ⟨0, 0, by decide!, by decide!, by decide!⟩, by decide!,
    fun h => by
      obtain ⟨⟨p, ⟨hin, hd⟩, hpx⟩, _⟩ := h
      rcases inbox_round p hin with rfl | rfl | rfl
      · exact absurd hd (by decide!)
      · exact absurd hpx (by decide!)
      · exact absurd hpx (by decide!)⟩

/-- C3 (amended). For an in-frame rectangle with at least one surviving pixel, the dense scan
returns, and on each axis the emitted box has min and max equal to the minimum and maximum of
that coordinate over exactly the surviving points: those at row-major index `y * width + x`,
`x ∈ [xmin, xmax)`, `y ∈ [ymin, ymax)`, that are valid and for which `fabs(point.x - anchor.x)`,
the difference rounded to `float`, does not exceed the threshold.  The anchor is arbitrary;
`estimate` runs this scan with the anchor returned by `compute_center_point`. -/
theorem dense_scan_box_is_extent_of_survivors (self : Darknet3D) (cloud : PointCloud)
    (anchor : PointXYZRGB) (bbx : BoundingBox) (hwf : WellFormed cloud)
    (hrange : InFloatRange cloud) (hrect : RectInFrame cloud bbx)
    (hsurv : ∃ q, Survives self cloud anchor bbx q) :
    ∃ e, dense_scan self cloud anchor bbx = Except.ok e ∧
      (compute_center_point cloud bbx = Except.ok anchor →
        estimate self cloud bbx = Except.ok (bbx_msg bbx e)) ∧
      IsMinOver (Survives self cloud anchor bbx) (fun p => p.x) (bbx_msg bbx e).xmin ∧
      IsMaxOver (Survives self cloud anchor bbx) (fun p => p.x) (bbx_msg bbx e).xmax ∧
      IsMinOver (Survives self cloud anchor bbx) (fun p => p.y) (bbx_msg bbx e).ymin ∧
      IsMaxOver (Survives self cloud anchor bbx) (fun p => p.y) (bbx_msg bbx e).ymax ∧
      IsMinOver (Survives self cloud anchor bbx) (fun p => p.z) (bbx_msg bbx e).zmin ∧
      IsMaxOver (Survives self cloud anchor bbx) (fun p => p.z) (bbx_msg bbx e).zmax := by
  have hscan := dense_scan_in_frame self cloud hwf anchor bbx hrect
  have hS := mem_kept_points self cloud anchor bbx
  have hfin := survives_finite self cloud hrange anchor bbx
  obtain ⟨px, nx, py, ny, pz, nz⟩ :=
    extent_fold_proj (kept_points self cloud anchor bbx) Extent.init
  refine ⟨_, hscan, ?_, ?_, ?_, ?_, ?_, ?_, ?_⟩
  · intro hc
    exact estimate_of_scan self cloud bbx anchor _ hc hscan
  · show IsMinOver _ _ (List.foldl Extent.update Extent.init _).minx
    rw [nx]
    exact fold_min_attained _ (fun p => p.x) _ hS hsurv _ (fun p hp => (hfin p hp).1.2)
  · show IsMaxOver _ _ (List.foldl Extent.update Extent.init _).maxx
    rw [px]
    exact fold_max_attained _ (fun p => p.x) _ hS hsurv _ (fun p hp => (hfin p hp).1.1)
  · show IsMinOver _ _ (List.foldl Extent.update Extent.init _).miny
    rw [ny]
    exact fold_min_attained _ (fun p => p.y) _ hS hsurv _ (fun p hp => (hfin p hp).2.1.2)
  · show IsMaxOver _ _ (List.foldl Extent.update Extent.init _).maxy
    rw [py]
    exact fold_max_attained _ (fun p => p.y) _ hS hsurv _ (fun p hp => (hfin p hp).2.1.1)
  · show IsMinOver _ _ (List.foldl Extent.update Extent.init _).minz
    rw [nz]
    exact fold_min_attained _ (fun p => p.z) _ hS hsurv _ (fun p hp => (hfin p hp).2.2.2)
  · show IsMaxOver _ _ (List.foldl Extent.update Extent.init _).maxz
    rw [pz]
    exact fold_max_attained _ (fun p => p.z) _ hS hsurv _ (fun p hp => (hfin p hp).2.2.1)

/-- Witness of C3: the 3 × 1 `cloud_round` with threshold 1/2 and the anchor of pixel (1,0).
The point of pixel (0,0) lies exactly at the threshold in `float` and survives; the point of
pixel (2,0) exceeds the threshold and does not enter the box, whose `xmax` stays 0.6f. -/
theorem dense_scan_box_is_extent_of_survivors_witness :
    WellFormed cloud_round ∧ InFloatRange cloud_round ∧ RectInFrame cloud_round box_round ∧
    (∃ q, Survives cfg0 cloud_round ⟨13421773 / 134217728, 0, 0⟩ box_round q) ∧
    (fabs_diff (5033165 / 8388608) (13421773 / 134217728) = cfg0.mininum_detection_thereshold_ ∧
      Survives cfg0 cloud_round ⟨13421773 / 134217728, 0, 0⟩ box_round
        ⟨5033165 / 8388608, 0, 0⟩) ∧
    (InBox cloud_round box_round ⟨11744051 / 16777216, 0, 0⟩ ∧
      exceeds (11744051 / 16777216) (13421773 / 134217728)
        cfg0.mininum_detection_thereshold_) ∧
    dense_scan cfg0 cloud_round ⟨13421773 / 134217728, 0, 0⟩ box_round
      = Except.ok ⟨5033165 / 8388608, 13421773 / 134217728, 0, 0, 0, 0⟩ ∧
    ∃ e, dense_scan cfg0 cloud_round ⟨13421773 / 134217728, 0, 0⟩ box_round = Except.ok e ∧
      (compute_center_point cloud_round box_round = Except.ok ⟨13421773 / 134217728, 0, 0⟩ →
        estimate cfg0 cloud_round box_round = Except.ok (bbx_msg box_round e)) ∧
      IsMinOver (Survives cfg0 cloud_round ⟨13421773 / 134217728, 0, 0⟩ box_round)
        (fun p => p.x) (bbx_msg box_round e).xmin ∧
      IsMaxOver (Survives cfg0 cloud_round ⟨13421773 / 134217728, 0, 0⟩ box_round)
        (fun p => p.x) (bbx_msg box_round e).xmax ∧
      IsMinOver (Survives cfg0 cloud_round ⟨13421773 / 134217728, 0, 0⟩ box_round)
        (fun p => p.y) (bbx_msg box_round e).ymin ∧
      IsMaxOver (Survives cfg0 cloud_round ⟨13421773 / 134217728, 0, 0⟩ box_round)
        (fun p => p.y) (bbx_msg box_round e).ymax ∧
      IsMinOver (Survives cfg0 cloud_round ⟨13421773 / 134217728, 0, 0⟩ box_round)
        (fun p => p.z) (bbx_msg box_round e).zmin ∧
      IsMaxOver (Survives cfg0 cloud_round ⟨13421773 / 134217728, 0, 0⟩ box_round)
        (fun p => p.z) (bbx_msg box_round e).zmax :=
  ⟨by decide!, by decide!, by decide!,
    ⟨⟨13421773 / 134217728, 0, 0⟩, 1, 0, by decide!, by decide!, by decide!, by decide!⟩,
    ⟨by decide!, 0, 0, by decide!, by decide!, by decide!, by decide!⟩,
    ⟨⟨2, 0, by decide!, by decide!, by decide!⟩, by decide!⟩,
    by decide!,
    dense_scan_box_is_extent_of_survivors cfg0 cloud_round ⟨13421773 / 134217728, 0, 0⟩
      box_round (by decide!) (by decide!) (by decide!)
      ⟨⟨13421773 / 134217728, 0, 0⟩, 1, 0, by decide!, by decide!, by decide!, by decide!⟩⟩

/-- C4. When at least one sparse sample survives, `compute_center_point` returns one of the
surviving samples (its pixel is in the frame and its point is valid), and the x-coordinate of
the returned point is less than or equal to the x-coordinate of every surviving sample. -/
theorem compute_center_point_is_min_x_sample (cloud : PointCloud) (box2d : BoundingBox)
    (hwf : WellFormed cloud) (hsome : ∃ q, SparseSample cloud box2d q) :
    ∃ p, compute_center_point cloud box2d = Except.ok p ∧ SparseSample cloud box2d p ∧
      ∀ q, SparseSample cloud box2d q → p.x ≤ q.x := by
  obtain ⟨l, hl, hmem⟩ := sample_points_spec cloud hwf box2d
  obtain ⟨q0, hq0⟩ := hsome
  cases l with
  | nil => exact absurd ((hmem q0).mpr hq0) (List.not_mem_nil q0)
  | cons p0 rest =>
    obtain ⟨h1, _, h3⟩ := min_x_loop_spec (p0 :: rest) p0
    refine ⟨min_x_loop p0 (p0 :: rest), by unfold compute_center_point; rw [hl], ?_, ?_⟩
    · rcases h1 with h1 | h1
      · rw [h1]
        exact (hmem p0).mp (List.mem_cons_self p0 rest)
      · exact (hmem _).mp h1
    · intro q hq
      exact h3 q ((hmem q).mpr hq)

/-- Witness of C4: the 1000 × 1 `cloud_wide`, where the horizontal stride is 1 and the samples
are the points of the columns 250 to 750; two of them are those of the columns 500 and 750,
with `x` = 500 and 250, so the returned point has `x` at most 250 and is not the centre
sample. -/
theorem compute_center_point_is_min_x_sample_witness :
    WellFormed cloud_wide ∧ (∃ q, SparseSample cloud_wide box_wide q) ∧
    (width_step box_wide = 1 ∧ new_x box_wide 0 = 500 ∧ new_x box_wide 250 = 750) ∧
    SparseSample cloud_wide box_wide ⟨500, 0, 0⟩ ∧
    SparseSample cloud_wide box_wide ⟨250, 0, 0⟩ ∧
    ∃ p, compute_center_point cloud_wide box_wide = Except.ok p ∧
      SparseSample cloud_wide box_wide p ∧
      (∀ q, SparseSample cloud_wide box_wide q → p.x ≤ q.x) ∧ p.x ≤ 250 :=
  ⟨by decide!, ⟨⟨500, 0, 0⟩, 0, 0, by decide!, by decide!, by decide!, by decide!⟩,
    by decide!,
    ⟨0, 0, by decide!, by decide!, by decide!, by decide!⟩,
    ⟨250, 0, by decide!, by decide!, by decide!, by decide!⟩,
    match compute_center_point_is_min_x_sample cloud_wide box_wide (by decide!)
      ⟨⟨500, 0, 0⟩, 0, 0, by decide!, by decide!, by decide!, by decide!⟩ with
    | ⟨p, h1, h2, h3⟩ =>
      ⟨p, h1, h2, h3, h3 ⟨250, 0, 0⟩ ⟨250, 0, by decide!, by decide!, by decide!, by decide!⟩⟩⟩

/-- C5. A detection goes through to estimation if and only if its confidence is at least the
minimum confidence and its class is in the allow-list: the loop then appends the estimate, and
otherwise leaves the output as it was.  A confidence equal to the minimum passes (with an
allowed class), and nothing passes an empty allow-list. -/
theorem detection_filter_iff (self : Darknet3D) (cloud : PointCloud) (bbx : BoundingBox)
    (rest : List BoundingBox) (out : List BoundingBox3d) :
    (skipped self bbx = false ↔
      self.minimum_probability_ ≤ bbx.probability ∧ bbx.Class ∈ self.interested_classes_) ∧
    detection_loop self cloud (bbx :: rest) out =
      (if self.minimum_probability_ ≤ bbx.probability ∧ bbx.Class ∈ self.interested_classes_ then
        match estimate self cloud bbx with
        | Except.error ex => Except.error ex
        | Except.ok b => detection_loop self cloud rest (out ++ [b])
      else detection_loop self cloud rest out) ∧
    (skipped { self with minimum_probability_ := bbx.probability } bbx = false ↔
      bbx.Class ∈ self.interested_classes_) ∧
    skipped { self with interested_classes_ := [] } bbx = true := by
  refine ⟨skipped_eq_false_iff self bbx, ?_, ?_, ?_⟩
  · by_cases hp : self.minimum_probability_ ≤ bbx.probability ∧
        bbx.Class ∈ self.interested_classes_
    · have hs := (skipped_eq_false_iff self bbx).mpr hp
      rw [if_pos hp]
      simp [detection_loop, hs]
    · have hs : skipped self bbx = true := by
        cases h : skipped self bbx with
        | true => rfl
        | false => exact absurd ((skipped_eq_false_iff self bbx).mp h) hp
      rw [if_neg hp]
      simp [detection_loop, hs]
  · rw [skipped_eq_false_iff]
    simp
  · simp [skipped]

/-- Witness of C5: a detection whose confidence equals the minimum, class allowed. -/
theorem detection_filter_iff_witness :
    skipped cfg0 ⟨"person", 3 / 10, 0, 0, 2, 2⟩ = false :=
  (detection_filter_iff cfg0 cloud_full ⟨"person", 3 / 10, 0, 0, 2, 2⟩ [] []).1.mpr
    ⟨by decide!, by decide!⟩

/-- C6 (failing input). Both strides of `box_full` are zero and its centre pixel (1,1) is NaN
in `cloud_hole`, whose three other pixels are valid points of the box: no sample survives and
`compute_center_point` returns the origin, not one of the valid points. -/
theorem zero_stride_tests_centre_only :
    width_step box_full = 0 ∧ height_step box_full = 0 ∧
    pixel cloud_hole (center_x box_full) (center_y box_full) = some none ∧
    pixel cloud_hole 0 0 = some (some ⟨1, 0, 0⟩) ∧
    pixel cloud_hole 1 0 = some (some ⟨1, 1, 0⟩) ∧
    pixel cloud_hole 0 1 = some (some ⟨1, 0, 1⟩) ∧
    sample_points cloud_hole box_full = Except.ok [] ∧
    compute_center_point cloud_hole box_full = Except.ok PointXYZRGB.zero :=
  ⟨by decide!, by decide!, by decide!, by decide!, by decide!, by decide!,
    sample_points_steps_zero_nil cloud_hole box_full (by decide!) (by decide!) (by decide!),
    compute_center_point_of_sample_nil cloud_hole box_full (by decide!) (by decide!)
      (by decide!)⟩

/-- C7 (failing input). On the 2 × 2 `cloud_full`, the scan of `box_past_right` (row 0, columns
0 to 2) reads column 2 of row 0 as index 2, the point of row 1, column 0, whose y = 5 becomes
the ymax of the box; the scan of `box_past_bottom` reads index 4 and the exception ends the batch,
the detection after it included. -/
theorem dense_scan_reads_outside_frame :
    ¬ InFrame cloud_full 2 0 ∧ pcl_index cloud_full 0 2 = pcl_index cloud_full 1 0 ∧
    calculate_boxes cfg0 cloud_full [box_past_right] BoundingBoxes3d.empty
      = Except.ok ⟨7, "/camera_link", [⟨"person", 9 / 10, 1, 1, 0, 5, 0, 0⟩]⟩ ∧
    calculate_boxes cfg0 cloud_full [box_past_bottom, box_full] BoundingBoxes3d.empty
      = Except.error Exn.out_of_range :=
  ⟨by decide!, by decide!,
    calculate_boxes_of_loop cfg0 cloud_full [box_past_right] BoundingBoxes3d.empty
      [⟨"person", 9 / 10, 1, 1, 0, 5, 0, 0⟩]
      ((detection_loop_cons_pass cfg0 cloud_full box_past_right [] []
        ⟨"person", 9 / 10, 1, 1, 0, 5, 0, 0⟩ (by decide!)
        (estimate_of_scan cfg0 cloud_full box_past_right ⟨1, 1, 0⟩ ⟨1, 1, 5, 0, 0, 0⟩
          (compute_center_point_of_sample_one cloud_full box_past_right ⟨1, 1, 0⟩ (by decide!)
            (by decide!) (by decide!))
          (by decide!))).trans
        (detection_loop_nil cfg0 cloud_full _)),
    calculate_boxes_of_loop_error cfg0 cloud_full [box_past_bottom, box_full]
      BoundingBoxes3d.empty Exn.out_of_range
      (detection_loop_cons_error cfg0 cloud_full box_past_bottom [box_full] [] Exn.out_of_range
        (by decide!)
        (estimate_of_scan_error cfg0 cloud_full box_past_bottom ⟨1, 5, 0⟩ Exn.out_of_range
          (compute_center_point_of_sample_one cloud_full box_past_bottom ⟨1, 5, 0⟩ (by decide!)
            (by decide!) (by decide!))
          (by decide!)))⟩

/-- C8 (failing input). The dense scan of `box_row` over `cloud_far` meets the valid point
(2,0,1) at pixel (0,0), yet the emitted box has min `FLT_MAX` above max `-FLT_MAX` on every
axis: no anchor was found, and the point is farther than the threshold from the origin. -/
theorem valid_sample_inverted_box :
    pixel cloud_far 0 0 = some (some ⟨2, 0, 1⟩) ∧
    compute_center_point cloud_far box_row = Except.ok PointXYZRGB.zero ∧
    calculate_boxes cfg0 cloud_far [box_row] BoundingBoxes3d.empty
      = Except.ok ⟨7, "/camera_link", [sentinel_box]⟩ ∧
    ¬ (sentinel_box.xmin ≤ sentinel_box.xmax) ∧ ¬ (sentinel_box.ymin ≤ sentinel_box.ymax) ∧
    ¬ (sentinel_box.zmin ≤ sentinel_box.zmax) :=
  ⟨by decide!, anchor_far,
    calculate_boxes_of_loop cfg0 cloud_far [box_row] BoundingBoxes3d.empty [sentinel_box]
      ((detection_loop_cons_pass cfg0 cloud_far box_row [] [] sentinel_box (by decide!)
        (estimate_of_scan cfg0 cloud_far box_row PointXYZRGB.zero Extent.init anchor_far
          (by decide!))).trans
        (detection_loop_nil cfg0 cloud_far _)),
    by decide!, by decide!, by decide!⟩

/-- C9. Whenever `calculate_boxes` returns, the boxes it appended correspond one to one, in
order, to a subsequence of the input detections (those that are not skipped), each carrying the
class label and the confidence of its detection; and it does return when the cloud is well
formed and the rectangles of the detections that pass lie in the frame. -/
theorem calculate_boxes_preserves_order (self : Darknet3D) (cloud : PointCloud)
    (boxes2d : List BoundingBox) (boxes : BoundingBoxes3d) :
    (∀ out, calculate_boxes self cloud boxes2d boxes = Except.ok out →
      ∃ news sub, out.bounding_boxes = boxes.bounding_boxes ++ news ∧
        sub = boxes2d.filter (fun b => !skipped self b) ∧ List.Sublist sub boxes2d ∧
        List.Forall₂ Carries news sub) ∧
    (WellFormed cloud → (∀ b ∈ boxes2d, skipped self b = false → RectInFrame cloud b) →
      ∃ out, calculate_boxes self cloud boxes2d boxes = Except.ok out) := by
  constructor
  · intro out h
    unfold calculate_boxes at h
    cases hl : detection_loop self cloud boxes2d boxes.bounding_boxes with
    | error ex => simp [hl] at h
    | ok l =>
      simp only [hl] at h
      cases h
      obtain ⟨news, h1, h2⟩ := detection_loop_spec self cloud boxes2d _ l hl
      exact ⟨news, _, h1, rfl, List.filter_sublist boxes2d, h2⟩
  · intro hwf hrect
    obtain ⟨l, hl⟩ := detection_loop_total self cloud hwf boxes2d hrect boxes.bounding_boxes
    exact ⟨⟨cloud.stamp, self.working_frame_, l⟩, by simp [calculate_boxes, hl]⟩

/-- Witness of C9: a batch of a skipped detection and a passing one on `cloud_full`. -/
theorem calculate_boxes_preserves_order_witness :
    (∃ news sub, [(⟨"person", 9 / 10, 1, 1, 0, 6, 0, 0⟩ : BoundingBox3d)]
        = BoundingBoxes3d.empty.bounding_boxes ++ news ∧
      sub = [box_dog, box_full].filter (fun b => !skipped cfg0 b) ∧
      List.Sublist sub [box_dog, box_full] ∧ List.Forall₂ Carries news sub) ∧
    ∃ out, calculate_boxes cfg0 cloud_full [box_dog, box_full] BoundingBoxes3d.empty
      = Except.ok out :=
  ⟨(calculate_boxes_preserves_order cfg0 cloud_full [box_dog, box_full]
      BoundingBoxes3d.empty).1 ⟨7, "/camera_link", [⟨"person", 9 / 10, 1, 1, 0, 6, 0, 0⟩]⟩
      (calculate_boxes_of_loop cfg0 cloud_full [box_dog, box_full] BoundingBoxes3d.empty
        [⟨"person", 9 / 10, 1, 1, 0, 6, 0, 0⟩]
        ((detection_loop_cons_skip cfg0 cloud_full box_dog [box_full] [] (by decide!)).trans
          ((detection_loop_cons_pass cfg0 cloud_full box_full [] []
            ⟨"person", 9 / 10, 1, 1, 0, 6, 0, 0⟩ (by decide!) estimate_box_full).trans
            (detection_loop_nil cfg0 cloud_full _)))),
    (calculate_boxes_preserves_order cfg0 cloud_full [box_dog, box_full]
      BoundingBoxes3d.empty).2 (by decide!) (by decide!)⟩

/-- C10. For every cache state and every query time `t`, `lookup_before t` returns none
exactly when the cache holds no frame with `frame_time ≤ t` (it is empty, or every stored frame
is later than `t`), and a frame it returns is a stored frame with `frame_time ≤ t` (a frame
stamped exactly `t` is eligible) whose `frame_time` is the greatest among the stored frames
with `frame_time ≤ t`. -/
theorem lookup_before_greatest (cache : FrameCache) (t : Nat) :
    (cache.lookup_before t = none ↔ ∀ f ∈ cache.entries, t < f.stamp) ∧
    (∀ r, cache.lookup_before t = some r →
      r ∈ cache.entries ∧ r.stamp ≤ t ∧ ∀ f ∈ cache.entries, f.stamp ≤ t → f.stamp ≤ r.stamp) ∧
    ((∃ f ∈ cache.entries, f.stamp ≤ t) → ∃ r, cache.lookup_before t = some r) := by
  obtain ⟨h1, h2⟩ := lookup_fold_spec t cache.entries none (fun b hb => by cases hb)
  refine ⟨?_, ?_, ?_⟩
  · unfold FrameCache.lookup_before
    rw [h1]
    simp
  · intro r hr
    obtain ⟨h3, h4, h5, _⟩ := h2 r hr
    refine ⟨?_, h4, h5⟩
    rcases h3 with h3 | h3
    · exact h3
    · cases h3
  · rintro ⟨f, hf, hft⟩
    cases hl : cache.lookup_before t with
    | some r => exact ⟨r, rfl⟩
    | none =>
      unfold FrameCache.lookup_before at hl
      have := (h1.mp hl).2 f hf
      omega

/-- Witness of C10: a query at time 9 on frames stamped 5, 9 and 12 returns the frame
stamped 9. -/
theorem lookup_before_greatest_witness :
    cache_three.lookup_before 9 = some ⟨9, 1, 1, [none]⟩ ∧
    (⟨9, 1, 1, [none]⟩ : PointCloud) ∈ cache_three.entries ∧
    ∀ f ∈ cache_three.entries, f.stamp ≤ 9 → f.stamp ≤ 9 :=
  ⟨by decide!,
    ((lookup_before_greatest cache_three 9).2.1 ⟨9, 1, 1, [none]⟩ (by decide!)).1,
    ((lookup_before_greatest cache_three 9).2.1 ⟨9, 1, 1, [none]⟩ (by decide!)).2.2⟩

/-- C11 (failing input). A frame is found for the batch, the box topic has a subscriber and
the transform succeeds, yet `darknetCb` publishes neither boxes nor markers: the first
detection extends past the bottom edge of the frame, the dense scan reads index 4 of 4 points
and the exception leaves the callback. -/
theorem callback_throws_instead_of_publishing :
    cache_full.lookup_before msg_past_bottom.image_stamp = some cloud_full ∧
    ¬ ((1 : Nat) = 0 ∧ (0 : Nat) = 0) ∧
    transform_id cfg0.working_frame_ cloud_full = some cloud_full ∧
    darknetCb cfg0 cache_full.lookup_before 1 0 transform_id msg_past_bottom
      = ⟨false, true, none, none, some Exn.out_of_range⟩ :=
  ⟨by decide!, by decide, rfl,
    darknetCb_uncaught cfg0 cache_full.lookup_before 1 0 transform_id msg_past_bottom cloud_full
      cloud_full Exn.out_of_range (by decide!) (by decide) rfl batch_past_bottom_throws⟩

/-- C12 (counterexample). The marker that `publish_markers` builds for the second box of
`boxes_three` has alpha 13421773 / 33554432, the `float` nearest to 0.4, which is not 0.4: the
colour fields of a marker are `float`, and 0.4 is not a `float`. -/
theorem publish_markers_alpha_counterexample :
    ∃ m, (publish_markers boxes_three)[1]? = some m ∧ m.color_a = 13421773 / 33554432 ∧
      m.color_a ≠ 4 / 10 :=
  ⟨bbx_marker boxes_three 1 ⟨"person", 1 / 2, 0, 1, 0, 1, 1, 1⟩,
    (publish_markers_loop_spec boxes_three boxes_three.bounding_boxes).2.2 1
      ⟨"person", 1 / 2, 0, 1, 0, 1, 1, 1⟩ (by decide!),
    alpha_value, by rw [show (bbx_marker boxes_three 1 ⟨"person", 1 / 2, 0, 1, 0, 1, 1, 1⟩).color_a
      = float32 (float64 (4 / 10)) from rfl, alpha_value]; decide!⟩

/-- C12 (amended). `publish_markers` produces exactly one marker per box of the batch, in
batch order: the marker at position `i` is a cube with id `i`; its centre is the `double`
value of `(max + min) / 2` and its scale the `double` value of `max - min` on each axis; its
colour is the `float` value of the `double` results `(1 - confidence) * 255` (red) and
`confidence * 255` (green), blue 0; and its alpha is 13421773 / 33554432, the `float` nearest
to 0.4, within 2⁻²⁵ of it. -/
theorem publish_markers_one_cuboid_per_box (boxes : BoundingBoxes3d) :
    (publish_markers boxes).length = boxes.bounding_boxes.length ∧
    ∀ (i : Nat) (bb : BoundingBox3d), boxes.bounding_boxes[i]? = some bb →
      ∃ m, (publish_markers boxes)[i]? = some m ∧ m.id = (i : Int) ∧
        m.type = MarkerType.CUBE ∧
        (m.position_x = float64 (float64 (bb.xmax + bb.xmin) / 2) ∧
          m.position_y = float64 (float64 (bb.ymax + bb.ymin) / 2) ∧
          m.position_z = float64 (float64 (bb.zmax + bb.zmin) / 2)) ∧
        (m.scale_x = float64 (bb.xmax - bb.xmin) ∧ m.scale_y = float64 (bb.ymax - bb.ymin) ∧
          m.scale_z = float64 (bb.zmax - bb.zmin)) ∧
        (m.color_r = float32 (float64 (float64 (1 - bb.probability) * 255)) ∧
          m.color_g = float32 (float64 (bb.probability * 255)) ∧ m.color_b = 0) ∧
        m.color_a = 13421773 / 33554432 ∧ |m.color_a - 4 / 10| ≤ 1 / 33554432 := by
  obtain ⟨_, h2, h3⟩ := publish_markers_loop_spec boxes boxes.bounding_boxes
  refine ⟨h2, ?_⟩
  intro i bb hi
  refine ⟨bbx_marker boxes (i : Int) bb, h3 i bb hi, rfl, rfl, ⟨rfl, rfl, rfl⟩, ⟨rfl, rfl, rfl⟩,
    ⟨rfl, rfl, rfl⟩, alpha_value, ?_⟩
  rw [show (bbx_marker boxes (i : Int) bb).color_a = float32 (float64 (4 / 10)) from rfl,
    alpha_value]
  decide!

/-- Witness of C12: the second of the three boxes of `boxes_three`, a unit square at
confidence 1/2, whose values are all exact but for alpha. -/
theorem publish_markers_one_cuboid_per_box_witness :
    boxes_three.bounding_boxes[1]? = some ⟨"person", 1 / 2, 0, 1, 0, 1, 1, 1⟩ ∧
    ∃ m, (publish_markers boxes_three)[1]? = some m ∧ m.id = ((1 : Nat) : Int) ∧
      m.type = MarkerType.CUBE ∧
      (m.position_x = float64 (float64 ((1 : ℚ) + 0) / 2) ∧
        m.position_y = float64 (float64 ((1 : ℚ) + 0) / 2) ∧
        m.position_z = float64 (float64 ((1 : ℚ) + 1) / 2)) ∧
      (m.scale_x = float64 ((1 : ℚ) - 0) ∧ m.scale_y = float64 ((1 : ℚ) - 0) ∧
        m.scale_z = float64 ((1 : ℚ) - 1)) ∧
      (m.color_r = float32 (float64 (float64 (1 - (1 / 2 : ℚ)) * 255)) ∧
        m.color_g = float32 (float64 ((1 / 2 : ℚ) * 255)) ∧ m.color_b = 0) ∧
      m.color_a = 13421773 / 33554432 ∧ |m.color_a - 4 / 10| ≤ 1 / 33554432 :=
  ⟨by decide!,
    (publish_markers_one_cuboid_per_box boxes_three).2 1 ⟨"person", 1 / 2, 0, 1, 0, 1, 1, 1⟩
      (by decide!)⟩

/-- C13 (counterexample). On the 4 × 4 `cloud_ramp`, whose points are all valid with `z = 1`,
the detection of scenario 1 passes the filter and lies in the frame, and the emitted box has
`xmin = 1`; the point (0,0,1) of pixel (0,0) is a point of the box, so 1 is not the minimum
x over the points of the box. -/
theorem scenario_one_counterexample :
    (∀ e ∈ cloud_ramp.points, ValidAtZ1 e) ∧ WellFormed cloud_ramp ∧
    RectInFrame cloud_ramp box_scenario ∧ skipped cfg0 box_scenario = false ∧
    calculate_boxes cfg0 cloud_ramp [box_scenario] BoundingBoxes3d.empty
      = Except.ok ⟨7, "/camera_link", [⟨"person", 9 / 10, 1, 1, 0, 1, 1, 1⟩]⟩ ∧
    InBox cloud_ramp box_scenario ⟨0, 0, 1⟩ ∧
    ¬ IsMinOver (InBox cloud_ramp box_scenario) (fun p => p.x) 1 :=
  ⟨by decide!, by decide!, by decide!, by decide!,
    calculate_boxes_single cfg0 cloud_ramp box_scenario BoundingBoxes3d.empty
      ⟨"person", 9 / 10, 1, 1, 0, 1, 1, 1⟩ (by decide!) estimate_ramp,
    ⟨0, 0, by decide!, by decide!, by decide!⟩,
    fun h => absurd (h.2 ⟨0, 0, 1⟩ ⟨0, 0, by decide!, by decide!, by decide!⟩) (by decide!)⟩

/-- C13 (amended). For a well-formed frame whose points are all valid with `z = 1`, a
non-negative threshold and a non-degenerate in-frame detection that passes the filter,
`calculate_boxes` emits one box with `zmin = zmax = 1` whose `xmin..xmax` and `ymin..ymax` are
the minimum and maximum x and y over the points of the pixels of the box that pass the test of
the dense scan (`fabs(point.x - anchor.x)`, the difference rounded to `float`, does not exceed
the threshold): over all the points of the box when they all pass. -/
theorem scenario_one_within_threshold (self : Darknet3D) (cloud : PointCloud)
    (bbx : BoundingBox) (boxes : BoundingBoxes3d) (hwf : WellFormed cloud)
    (hrange : InFloatRange cloud) (hz : ∀ e ∈ cloud.points, ValidAtZ1 e)
    (hthr : 0 ≤ self.mininum_detection_thereshold_) (hrect : RectInFrame cloud bbx)
    (hnd : bbx.xmin < bbx.xmax ∧ bbx.ymin < bbx.ymax) (hpass : skipped self bbx = false) :
    ∃ anchor b, compute_center_point cloud bbx = Except.ok anchor ∧
      calculate_boxes self cloud [bbx] boxes
        = Except.ok ⟨cloud.stamp, self.working_frame_, boxes.bounding_boxes ++ [b]⟩ ∧
      (b.zmin = 1 ∧ b.zmax = 1) ∧
      (IsMinOver (Survives self cloud anchor bbx) (fun p => p.x) b.xmin ∧
        IsMaxOver (Survives self cloud anchor bbx) (fun p => p.x) b.xmax ∧
        IsMinOver (Survives self cloud anchor bbx) (fun p => p.y) b.ymin ∧
        IsMaxOver (Survives self cloud anchor bbx) (fun p => p.y) b.ymax) ∧
      ((∀ p, InBox cloud bbx p → ¬ exceeds p.x anchor.x self.mininum_detection_thereshold_) →
        IsMinOver (InBox cloud bbx) (fun p => p.x) b.xmin ∧
        IsMaxOver (InBox cloud bbx) (fun p => p.x) b.xmax ∧
        IsMinOver (InBox cloud bbx) (fun p => p.y) b.ymin ∧
        IsMaxOver (InBox cloud bbx) (fun p => p.y) b.ymax) := by
  obtain ⟨a, ha, hsa⟩ := compute_center_point_anchor cloud bbx hwf
    (centre_sample_exists cloud bbx hwf hz hrect hnd)
  have hS : Survives self cloud a bbx a :=
    anchor_survives self cloud bbx a hthr ⟨hrect.1, hnd.1⟩ ⟨hrect.2.2.1, hnd.2⟩
      ⟨hrect.2.2.2.2.2.1, hrect.2.2.2.2.2.2.2⟩ hsa
  obtain ⟨e, he, ⟨hnx, hpx⟩, ⟨hny, hpy⟩, ⟨hnz, hpz⟩⟩ :=
    dense_scan_extremes self cloud a bbx hwf hrange hrect ⟨a, hS⟩
  refine ⟨a, bbx_msg bbx e, ha,
    calculate_boxes_single self cloud bbx boxes _ hpass
      (estimate_of_scan self cloud bbx a e ha he), ⟨?_, ?_⟩, ⟨hnx, hpx, hny, hpy⟩, ?_⟩
  · obtain ⟨p, hp, hpe⟩ := hnz.1
    show e.minz = 1
    rw [← hpe]
    exact survivor_at_z1 self cloud a bbx hz p hp
  · obtain ⟨p, hp, hpe⟩ := hpz.1
    show e.maxz = 1
    rw [← hpe]
    exact survivor_at_z1 self cloud a bbx hz p hp
  · intro hall
    have hiff := survives_iff_in_box self cloud a bbx hall
    exact ⟨isMinOver_congr _ _ _ _ hiff hnx, isMaxOver_congr _ _ _ _ hiff hpx,
      isMinOver_congr _ _ _ _ hiff hny, isMaxOver_congr _ _ _ _ hiff hpy⟩

/-- Witness of C13 (amended): scenario 1 with threshold 1/2 on the 4 × 4 `cloud_ramp`, where
the anchor has `x` = 1 and the points of column 0 of the box, at distance 1, are left out, and
on the 4 × 4 `cloud_flat`, where the four points of the box lie within 1/4 of the anchor. -/
theorem scenario_one_within_threshold_witness :
    (WellFormed cloud_ramp ∧ InFloatRange cloud_ramp ∧ (∀ e ∈ cloud_ramp.points, ValidAtZ1 e) ∧
      RectInFrame cloud_ramp box_scenario ∧ skipped cfg0 box_scenario = false ∧
      ∃ anchor b, compute_center_point cloud_ramp box_scenario = Except.ok anchor ∧
        calculate_boxes cfg0 cloud_ramp [box_scenario] BoundingBoxes3d.empty
          = Except.ok ⟨cloud_ramp.stamp, cfg0.working_frame_,
              BoundingBoxes3d.empty.bounding_boxes ++ [b]⟩ ∧
        (b.zmin = 1 ∧ b.zmax = 1) ∧
        (IsMinOver (Survives cfg0 cloud_ramp anchor box_scenario) (fun p => p.x) b.xmin ∧
          IsMaxOver (Survives cfg0 cloud_ramp anchor box_scenario) (fun p => p.x) b.xmax ∧
          IsMinOver (Survives cfg0 cloud_ramp anchor box_scenario) (fun p => p.y) b.ymin ∧
          IsMaxOver (Survives cfg0 cloud_ramp anchor box_scenario) (fun p => p.y) b.ymax) ∧
        ((∀ p, InBox cloud_ramp box_scenario p →
            ¬ exceeds p.x anchor.x cfg0.mininum_detection_thereshold_) →
          IsMinOver (InBox cloud_ramp box_scenario) (fun p => p.x) b.xmin ∧
          IsMaxOver (InBox cloud_ramp box_scenario) (fun p => p.x) b.xmax ∧
          IsMinOver (InBox cloud_ramp box_scenario) (fun p => p.y) b.ymin ∧
          IsMaxOver (InBox cloud_ramp box_scenario) (fun p => p.y) b.ymax)) ∧
    (WellFormed cloud_flat ∧ InFloatRange cloud_flat ∧ (∀ e ∈ cloud_flat.points, ValidAtZ1 e) ∧
      RectInFrame cloud_flat box_scenario ∧ skipped cfg0 box_scenario = false ∧
      ∃ anchor b, compute_center_point cloud_flat box_scenario = Except.ok anchor ∧
        calculate_boxes cfg0 cloud_flat [box_scenario] BoundingBoxes3d.empty
          = Except.ok ⟨cloud_flat.stamp, cfg0.working_frame_,
              BoundingBoxes3d.empty.bounding_boxes ++ [b]⟩ ∧
        (b.zmin = 1 ∧ b.zmax = 1) ∧
        (IsMinOver (Survives cfg0 cloud_flat anchor box_scenario) (fun p => p.x) b.xmin ∧
          IsMaxOver (Survives cfg0 cloud_flat anchor box_scenario) (fun p => p.x) b.xmax ∧
          IsMinOver (Survives cfg0 cloud_flat anchor box_scenario) (fun p => p.y) b.ymin ∧
          IsMaxOver (Survives cfg0 cloud_flat anchor box_scenario) (fun p => p.y) b.ymax) ∧
        ((∀ p, InBox cloud_flat box_scenario p →
            ¬ exceeds p.x anchor.x cfg0.mininum_detection_thereshold_) →
          IsMinOver (InBox cloud_flat box_scenario) (fun p => p.x) b.xmin ∧
          IsMaxOver (InBox cloud_flat box_scenario) (fun p => p.x) b.xmax ∧
          IsMinOver (InBox cloud_flat box_scenario) (fun p => p.y) b.ymin ∧
          IsMaxOver (InBox cloud_flat box_scenario) (fun p => p.y) b.ymax)) :=
  ⟨⟨by decide!, by decide!, by decide!, by decide!, by decide!,
    scenario_one_within_threshold cfg0 cloud_ramp box_scenario BoundingBoxes3d.empty
      (by decide!) (by decide!) (by decide!) (by decide!) (by decide!)
      ⟨by decide!, by decide!⟩ (by decide!)⟩,
    ⟨by decide!, by decide!, by decide!, by decide!, by decide!,
    scenario_one_within_threshold cfg0 cloud_flat box_scenario BoundingBoxes3d.empty
      (by decide!) (by decide!) (by decide!) (by decide!) (by decide!)
      ⟨by decide!, by decide!⟩ (by decide!)⟩⟩

/-- C14. `calculate_boxes` is deterministic: on the same batch, the same aligned frame, the same
configuration and the same `boxes` on entry, two runs return the same Detection3D batch (or
throw the same exception) whatever the clock reads in `compute_center_point` and whatever an
earlier run left behind (the position of the clock and the lines already printed); the batch
is the value of `calculate_boxes`, a function of those arguments alone. -/
theorem calculate_boxes_deterministic (self : Darknet3D) (cloud : PointCloud)
    (boxes2d : List BoundingBox) (boxes : BoundingBoxes3d) (world1 world2 : World) :
    (calculate_boxes_timed self world1 cloud boxes2d boxes).map Prod.fst
        = (calculate_boxes_timed self world2 cloud boxes2d boxes).map Prod.fst ∧
      (calculate_boxes_timed self world1 cloud boxes2d boxes).map Prod.fst
        = calculate_boxes self cloud boxes2d boxes := by
  rw [calculate_boxes_timed_fst, calculate_boxes_timed_fst]
  exact ⟨rfl, rfl⟩

/-- C15 (counterexample). For a rectangle of width 1580909 the stride of
`compute_center_point` is 1739, while `⌊1580909 * 0.55 / 500⌋` with the fraction as an exact
rational is 1738: the code multiplies by the `float` 0.55f and rounds the product to `float`,
which gives 869500 where the exact product is 869499.95. -/
theorem strides_are_floors_counterexample :
    0 ≤ (⟨"person", 9 / 10, 0, 0, 1580909, 0⟩ : BoundingBox).xmax
        - (⟨"person", 9 / 10, 0, 0, 1580909, 0⟩ : BoundingBox).xmin ∧
      width_step ⟨"person", 9 / 10, 0, 0, 1580909, 0⟩ = 1739 ∧
      ⌊(((1580909 : Int) - 0 : Int) : ℚ) * (55 / 100) / 500⌋ = 1738 ∧
      float32 (float32 (1580909 : ℚ) * float32 (55 / 100)) = 869500 := by
  decide!

/-- C15 (amended). For a rectangle of width `w = xmax - xmin` and height `h = ymax - ymin`,
both non-negative and fitting an `int`, the strides of `compute_center_point` are
`⌊p / 500⌋` for `p` the `float` product of `w` and 0.55f, respectively of `h` and 0.35f (the
factors and the product each rounded to `float`): truncating the product before the integer
division does not change the result. -/
theorem strides_are_floors (box2d : BoundingBox) (hw : 0 ≤ box2d.xmax - box2d.xmin)
    (hh : 0 ≤ box2d.ymax - box2d.ymin) (hwfit : box2d.xmax - box2d.xmin < 2 ^ 31)
    (hhfit : box2d.ymax - box2d.ymin < 2 ^ 31) :
    width_step box2d
        = ⌊float32 (float32 ((box2d.xmax - box2d.xmin : Int) : ℚ) * float32 (55 / 100)) / 500⌋ ∧
      height_step box2d
        = ⌊float32 (float32 ((box2d.ymax - box2d.ymin : Int) : ℚ) * float32 (35 / 100)) / 500⌋ := by
  have h1 : (0 : ℚ) ≤ ((box2d.xmax - box2d.xmin : Int) : ℚ) := by exact_mod_cast hw
  have h2 : (0 : ℚ) ≤ ((box2d.ymax - box2d.ymin : Int) : ℚ) := by exact_mod_cast hh
  constructor
  · unfold width_step
    rw [box_width_of_fit box2d hw hwfit]
    exact tdiv_floor_div _ (float32_nonneg _
      (mul_nonneg (float32_nonneg _ h1) width_percentage_bound.1))
  · unfold height_step
    rw [box_height_of_fit box2d hh hhfit]
    exact tdiv_floor_div _ (float32_nonneg _
      (mul_nonneg (float32_nonneg _ h2) height_percentage_bound.1))

/-- Witness of C15: a 1000 × 3000 rectangle, whose strides are 1 and 2. -/
theorem strides_are_floors_witness :
    width_step ⟨"person", 9 / 10, 0, 0, 1000, 3000⟩
        = ⌊float32 (float32 (((1000 : Int) - 0 : Int) : ℚ) * float32 (55 / 100)) / 500⌋ ∧
      height_step ⟨"person", 9 / 10, 0, 0, 1000, 3000⟩
        = ⌊float32 (float32 (((3000 : Int) - 0 : Int) : ℚ) * float32 (35 / 100)) / 500⌋ :=
  strides_are_floors ⟨"person", 9 / 10, 0, 0, 1000, 3000⟩ (by decide) (by decide) (by decide)
    (by decide)

/-- C16. On a cloud that holds exactly `width * height` points (indices fitting an `int`), a
sample whose pixel lies outside `0 ≤ x < width`, `0 ≤ y < height` is discarded without a read;
for a pixel inside, the index read is the row-major `y * width + x`, it lies in
`[0, width * height)`, the read succeeds, and the sample is kept exactly when the point is
valid.  So the sampling loops return the surviving samples and `compute_center_point`
returns. -/
theorem compute_center_point_reads_in_bounds (cloud : PointCloud) (box2d : BoundingBox)
    (hwf : WellFormed cloud) :
    (∀ x y : Int, ¬ InFrame cloud x y → sample cloud x y = Except.ok []) ∧
    (∀ x y : Int, InFrame cloud x y →
      pcl_index cloud y x = y * (cloud.width : Int) + x ∧ 0 ≤ pcl_index cloud y x ∧
        pcl_index cloud y x < ((cloud.width * cloud.height : Nat) : Int) ∧
        ((cloud_at cloud (pcl_index cloud y x) = Except.ok none ∧
            sample cloud x y = Except.ok []) ∨
          ∃ p, cloud_at cloud (pcl_index cloud y x) = Except.ok (some p) ∧
            sample cloud x y = Except.ok [p])) ∧
    (∃ l, sample_points cloud box2d = Except.ok l ∧ ∀ p, p ∈ l ↔ SparseSample cloud box2d p) ∧
    ∃ p, compute_center_point cloud box2d = Except.ok p := by
  refine ⟨?_, ?_, sample_points_spec cloud hwf box2d, compute_center_point_total cloud hwf box2d⟩
  · intro x y hout
    have hguard : x < 0 ∨ x ≥ (cloud.width : Int) ∨ y < 0 ∨ y ≥ (cloud.height : Int) := by
      unfold InFrame at hout
      omega
    simp [sample, hguard]
  · intro x y hin
    obtain ⟨hidx, h0, hlt⟩ := pcl_index_in_frame cloud hwf x y hin
    obtain ⟨e, _, hat⟩ := cloud_at_in_frame cloud hwf x y hin
    have hguard : ¬ (x < 0 ∨ x ≥ (cloud.width : Int) ∨ y < 0 ∨ y ≥ (cloud.height : Int)) := by
      obtain ⟨h1, h2, h3, h4⟩ := hin
      omega
    refine ⟨hidx, by rw [hidx]; exact h0, ?_, ?_⟩
    · rw [hidx, ← hwf.1]
      omega
    · cases e with
      | none => exact Or.inl ⟨hat, by simp [sample, hguard, hat]⟩
      | some p => exact Or.inr ⟨p, hat, by simp [sample, hguard, hat]⟩

/-- Witness of C16: the 2 × 2 `cloud_hole` and the detection over the whole frame. -/
theorem compute_center_point_reads_in_bounds_witness :
    WellFormed cloud_hole ∧
    (∃ l, sample_points cloud_hole box_full = Except.ok l ∧
      ∀ p, p ∈ l ↔ SparseSample cloud_hole box_full p) ∧
    ∃ p, compute_center_point cloud_hole box_full = Except.ok p :=
  ⟨by decide!, (compute_center_point_reads_in_bounds cloud_hole box_full (by decide!)).2.2⟩

/-- C17 (counterexample). The rectangle with `xmin = 2^32`, `xmax = 2^32 + 1` and
`ymin = ymax = 0` satisfies `0 ≤ xmin ≤ xmax` and `0 ≤ ymin ≤ ymax`, but its centre column,
stored in an `int`, is 0: the sampled pixel of `i = 0` lies left of `xmin`. -/
theorem sampled_pixels_counterexample :
    (0 ≤ (⟨"person", 9 / 10, 4294967296, 0, 4294967297, 0⟩ : BoundingBox).xmin ∧
      (⟨"person", 9 / 10, 4294967296, 0, 4294967297, 0⟩ : BoundingBox).xmin
        ≤ (⟨"person", 9 / 10, 4294967296, 0, 4294967297, 0⟩ : BoundingBox).xmax) ∧
    (0 ≤ (⟨"person", 9 / 10, 4294967296, 0, 4294967297, 0⟩ : BoundingBox).ymin ∧
      (⟨"person", 9 / 10, 4294967296, 0, 4294967297, 0⟩ : BoundingBox).ymin
        ≤ (⟨"person", 9 / 10, 4294967296, 0, 4294967297, 0⟩ : BoundingBox).ymax) ∧
    center_x ⟨"person", 9 / 10, 4294967296, 0, 4294967297, 0⟩ = 0 ∧
    new_x ⟨"person", 9 / 10, 4294967296, 0, 4294967297, 0⟩ 0 = 0 ∧
    ¬ (⟨"person", 9 / 10, 4294967296, 0, 4294967297, 0⟩ : BoundingBox).xmin
      ≤ new_x ⟨"person", 9 / 10, 4294967296, 0, 4294967297, 0⟩ 0 := by
  decide!

/-- C17 (amended). For a rectangle with `0 ≤ xmin ≤ xmax < 2^31` and `0 ≤ ymin ≤ ymax < 2^31`,
every pixel `(new_x, new_y)` that `compute_center_point` enumerates for `i, j ∈ [-250, 250]`
is `(cx + i * step_x, cy + j * step_y)` without any wrap, lies in the closed rectangle
`[xmin, xmax] × [ymin, ymax]`, and when `xmin < xmax` and `ymin < ymax` in the half-open range
`[xmin, xmax) × [ymin, ymax)` of the dense scan. -/
theorem sampled_pixels_in_rectangle (box2d : BoundingBox) (i j : Int)
    (hx : 0 ≤ box2d.xmin ∧ box2d.xmin ≤ box2d.xmax)
    (hy : 0 ≤ box2d.ymin ∧ box2d.ymin ≤ box2d.ymax)
    (hfit : box2d.xmax < 2 ^ 31 ∧ box2d.ymax < 2 ^ 31)
    (hi : -250 ≤ i ∧ i ≤ 250) (hj : -250 ≤ j ∧ j ≤ 250) :
    (new_x box2d i = Int.tdiv (box2d.xmax + box2d.xmin) 2 + i * width_step box2d ∧
      new_y box2d j = Int.tdiv (box2d.ymax + box2d.ymin) 2 + j * height_step box2d) ∧
    ((box2d.xmin ≤ new_x box2d i ∧
        new_x box2d i ≤ box2d.xmax) ∧
      (box2d.ymin ≤ new_y box2d j ∧
        new_y box2d j ≤ box2d.ymax)) ∧
    (box2d.xmin < box2d.xmax → box2d.ymin < box2d.ymax →
      new_x box2d i ∈ int_range box2d.xmin box2d.xmax ∧
        new_y box2d j ∈ int_range box2d.ymin box2d.ymax) := by
  obtain ⟨hxc, hxo⟩ := new_x_in_range box2d i hx hfit.1 hi
  obtain ⟨hyc, hyo⟩ := new_y_in_range box2d j hy hfit.2 hj
  refine ⟨⟨new_x_exact box2d i hx hfit.1 hi, new_y_exact box2d j hy hfit.2 hj⟩, ⟨hxc, hyc⟩, ?_⟩
  intro hxlt hylt
  rw [mem_int_range, mem_int_range]
  exact ⟨⟨hxc.1, hxo hxlt⟩, ⟨hyc.1, hyo hylt⟩⟩

/-- Witness of C17: the corner sample `i = -250`, `j = 250` of a 1000 × 3000 rectangle, the
pixel (250, 2000). -/
theorem sampled_pixels_in_rectangle_witness :
    new_x ⟨"person", 9 / 10, 0, 0, 1000, 3000⟩ (-250) = 250 ∧
      new_y ⟨"person", 9 / 10, 0, 0, 1000, 3000⟩ 250 = 2000 ∧
      new_x ⟨"person", 9 / 10, 0, 0, 1000, 3000⟩ (-250) ∈ int_range 0 1000 ∧
      new_y ⟨"person", 9 / 10, 0, 0, 1000, 3000⟩ 250 ∈ int_range 0 3000 :=
  ⟨by decide!, by decide!,
    (sampled_pixels_in_rectangle ⟨"person", 9 / 10, 0, 0, 1000, 3000⟩ (-250) 250
      ⟨by decide, by decide⟩ ⟨by decide, by decide⟩ ⟨by decide, by decide⟩
      ⟨by decide, by decide⟩ ⟨by decide, by decide⟩).2.2 (by decide) (by decide)⟩

/-- C18 (counterexample). On the 3 × 1 `cloud_round` with threshold 1/2 and the detection over
the whole frame, a sparse sample survives, the anchor has `x` = 0.1f and the emitted box has
`xmax` = 0.6f: `xmax - anchor.x` is above the threshold, because the code compares the `float`
difference, which rounds to 1/2. -/
theorem box_face_beyond_threshold_counterexample :
    WellFormed cloud_round ∧ InFloatRange cloud_round ∧
    0 ≤ cfg0.mininum_detection_thereshold_ ∧ RectInFrame cloud_round box_round ∧
    (box_round.xmin < box_round.xmax ∧ box_round.ymin < box_round.ymax) ∧
    (∃ q, SparseSample cloud_round box_round q) ∧
    compute_center_point cloud_round box_round = Except.ok ⟨13421773 / 134217728, 0, 0⟩ ∧
    estimate cfg0 cloud_round box_round
      = Except.ok ⟨"person", 9 / 10, 13421773 / 134217728, 5033165 / 8388608, 0, 0, 0, 0⟩ ∧
    ¬ (5033165 / 8388608 : ℚ) - 13421773 / 134217728 ≤ cfg0.mininum_detection_thereshold_ :=
  ⟨by decide!, by decide!, by decide!, by decide!, ⟨by decide!, by decide!⟩,
    ⟨⟨13421773 / 134217728, 0, 0⟩, 0, 0, by decide!, by decide!, by decide!, by decide!⟩,
    anchor_round, estimate_round, by decide!⟩

/-- C18 (amended). For a non-negative threshold and a non-degenerate rectangle inside the
frame, if at least one sparse sample survives then the box that `calculate_boxes` computes for
the detection is non-empty and contains the anchor on each axis, and along x the distance of
each of its two faces to the anchor, computed in `float` as the dense scan does
(`fabs(x - anchor.x)`, the difference rounded), is at most the threshold. -/
theorem box_contains_anchor (self : Darknet3D) (cloud : PointCloud) (bbx : BoundingBox)
    (hwf : WellFormed cloud) (hrange : InFloatRange cloud)
    (hthr : 0 ≤ self.mininum_detection_thereshold_) (hrect : RectInFrame cloud bbx)
    (hnd : bbx.xmin < bbx.xmax ∧ bbx.ymin < bbx.ymax)
    (hsome : ∃ q, SparseSample cloud bbx q) :
    ∃ anchor b, compute_center_point cloud bbx = Except.ok anchor ∧
      estimate self cloud bbx = Except.ok b ∧
      (∃ q, Survives self cloud anchor bbx q) ∧
      (b.xmin ≤ anchor.x ∧ anchor.x ≤ b.xmax) ∧ (b.ymin ≤ anchor.y ∧ anchor.y ≤ b.ymax) ∧
      (b.zmin ≤ anchor.z ∧ anchor.z ≤ b.zmax) ∧
      fabs_diff b.xmax anchor.x ≤ self.mininum_detection_thereshold_ ∧
      fabs_diff b.xmin anchor.x ≤ self.mininum_detection_thereshold_ := by
  obtain ⟨a, ha, hsa⟩ := compute_center_point_anchor cloud bbx hwf hsome
  have hS : Survives self cloud a bbx a :=
    anchor_survives self cloud bbx a hthr ⟨hrect.1, hnd.1⟩ ⟨hrect.2.2.1, hnd.2⟩
      ⟨hrect.2.2.2.2.2.1, hrect.2.2.2.2.2.2.2⟩ hsa
  obtain ⟨e, he, ⟨hnx, hpx⟩, ⟨hny, hpy⟩, ⟨hnz, hpz⟩⟩ :=
    dense_scan_extremes self cloud a bbx hwf hrange hrect ⟨a, hS⟩
  refine ⟨a, bbx_msg bbx e, ha, estimate_of_scan self cloud bbx a e ha he, ⟨a, hS⟩,
    ⟨hnx.2 a hS, hpx.2 a hS⟩, ⟨hny.2 a hS, hpy.2 a hS⟩, ⟨hnz.2 a hS, hpz.2 a hS⟩, ?_, ?_⟩
  · obtain ⟨p, hp, hpe⟩ := hpx.1
    obtain ⟨_, _, _, _, _, hd⟩ := hp
    show fabs_diff e.maxx a.x ≤ _
    rw [← hpe]
    exact not_lt.mp (fun h => hd (Or.inr h))
  · obtain ⟨p, hp, hpe⟩ := hnx.1
    obtain ⟨_, _, _, _, _, hd⟩ := hp
    show fabs_diff e.minx a.x ≤ _
    rw [← hpe]
    exact not_lt.mp (fun h => hd (Or.inr h))

/-- Witness of C18: the 3 × 1 `cloud_round` with threshold 1/2, where the face `xmax` = 0.6f of
the emitted box lies exactly at the threshold from the anchor in `float` and the point with
`x` = 0.7f is left out. -/
theorem box_contains_anchor_witness :
    WellFormed cloud_round ∧ InFloatRange cloud_round ∧ RectInFrame cloud_round box_round ∧
    (∃ q, SparseSample cloud_round box_round q) ∧
    (fabs_diff (5033165 / 8388608) (13421773 / 134217728) = cfg0.mininum_detection_thereshold_ ∧
      exceeds (11744051 / 16777216) (13421773 / 134217728)
        cfg0.mininum_detection_thereshold_) ∧
    ∃ anchor b, compute_center_point cloud_round box_round = Except.ok anchor ∧
      estimate cfg0 cloud_round box_round = Except.ok b ∧
      (∃ q, Survives cfg0 cloud_round anchor box_round q) ∧
      (b.xmin ≤ anchor.x ∧ anchor.x ≤ b.xmax) ∧ (b.ymin ≤ anchor.y ∧ anchor.y ≤ b.ymax) ∧
      (b.zmin ≤ anchor.z ∧ anchor.z ≤ b.zmax) ∧
      fabs_diff b.xmax anchor.x ≤ cfg0.mininum_detection_thereshold_ ∧
      fabs_diff b.xmin anchor.x ≤ cfg0.mininum_detection_thereshold_ :=
  ⟨by decide!, by decide!, by decide!,
    ⟨⟨13421773 / 134217728, 0, 0⟩, 0, 0, by decide!, by decide!, by decide!, by decide!⟩,
    ⟨by decide!, by decide!⟩,
    box_contains_anchor cfg0 cloud_round box_round (by decide!) (by decide!) (by decide!)
      (by decide!) ⟨by decide!, by decide!⟩
      ⟨⟨13421773 / 134217728, 0, 0⟩, 0, 0, by decide!, by decide!, by decide!, by decide!⟩⟩

/-- C19. On a frame on which the reads of every passing detection succeed, `calculate_boxes`
returns, its header carries the stamp of the frame and the working frame id, and it appends as
many boxes as there are detections that pass the filter, whatever the depth data: the i-th
appended box is the estimate of the i-th passing detection and carries its class and
confidence. -/
theorem calculate_boxes_one_box_per_passing_detection (self : Darknet3D) (cloud : PointCloud)
    (boxes2d : List BoundingBox) (boxes : BoundingBoxes3d)
    (hreads : ∀ b ∈ boxes2d, skipped self b = false →
      ∃ b3, estimate self cloud b = Except.ok b3) :
    ∃ news, calculate_boxes self cloud boxes2d boxes
        = Except.ok ⟨cloud.stamp, self.working_frame_, boxes.bounding_boxes ++ news⟩ ∧
      news.length = (boxes2d.filter (fun b => !skipped self b)).length ∧
      List.Forall₂ (fun b3 b2 => estimate self cloud b2 = Except.ok b3 ∧ Carries b3 b2) news
        (boxes2d.filter (fun b => !skipped self b)) := by
  obtain ⟨news, h1, h2⟩ := detection_loop_estimates self cloud boxes2d hreads boxes.bounding_boxes
  exact ⟨news, calculate_boxes_of_loop self cloud boxes2d boxes _ h1, h2.length_eq, h2⟩

/-- Witness of C19: a batch of three detections, one of them skipped, on `cloud_nan_left`,
where the first detection has no valid point at all. -/
theorem calculate_boxes_one_box_per_passing_detection_witness :
    ∃ news, calculate_boxes cfg0 cloud_nan_left [box_left, box_dog, box_right]
          BoundingBoxes3d.empty
        = Except.ok ⟨cloud_nan_left.stamp, cfg0.working_frame_,
            BoundingBoxes3d.empty.bounding_boxes ++ news⟩ ∧
      news.length = ([box_left, box_dog, box_right].filter (fun b => !skipped cfg0 b)).length ∧
      List.Forall₂ (fun b3 b2 => estimate cfg0 cloud_nan_left b2 = Except.ok b3 ∧ Carries b3 b2)
        news ([box_left, box_dog, box_right].filter (fun b => !skipped cfg0 b)) :=
  calculate_boxes_one_box_per_passing_detection cfg0 cloud_nan_left
    [box_left, box_dog, box_right] BoundingBoxes3d.empty reads_nan_left

end darknet_ros_3d
